import Mathlib

/-!
# Expense tracker: the Reports view, the session and the forms

A shallow embedding of `frontend/src/components/Reports.js`, together with the
parts of the JavaScript `Date` object and of the date-fns library that the view
calls, of `frontend/src/contexts/AuthContext.js`, of
`frontend/src/contexts/CurrencyContext.js` with the selector of `Navbar.js`, of
the submit handlers of `Register.js`, `ResetPassword.js` and `Profile.js`, of
`fetchDashboardData` in `Dashboard.js` and of `ProtectedRoute` in `App.js`,
followed by the properties of the reporting pipeline, of the session, of the
currency preference and of the forms.

Conventions of the embedding.

* A valid `Date` is represented by its local time value, an integer number of
  milliseconds (the quantity called `LocalTime(t)` in ECMA-262). Every getter
  and setter the view reaches reads and writes local fields, so the offset of
  the local zone never enters. Time values are unbounded here: the clipping of
  ECMA-262 (`TimeClip`, about 275,760 years on either side of 1970) is not part
  of the model.
* `Invalid Date` is `none`.
* Amounts are rational numbers: the arithmetic is exact.
* A thrown exception is `Except.error` carrying the message.
* An asynchronous function is given what its awaited request settles to, and
  returns the state after it together with its result and the requests sent.
* A number handed to `formatAmount` is an exact rational, `NaN` or an infinity;
  the rounding of binary floating point is not part of the model.
* The calls `JSON.stringify` and `JSON.parse` are embedded on the records of
  three texts the currency provider saves; a saved text of another shape has no
  result in the model.
-/

namespace ExpenseTracker

/-! ## ECMA-262 time arithmetic (section "Time Values and Time Range") -/

/-- Milliseconds in a day. -/
def msPerDay : Int := 86400000

/-- Milliseconds in an hour. -/
def msPerHour : Int := 3600000

/-- Milliseconds in a minute. -/
def msPerMinute : Int := 60000

/-- Milliseconds in a second. -/
def msPerSecond : Int := 1000

/-- The day number of a time value: `floor(t / msPerDay)`. -/
def Day (t : Int) : Int := t / msPerDay

/-- The milliseconds elapsed within the day: `t modulo msPerDay`. -/
def TimeWithinDay (t : Int) : Int := t % msPerDay

/-- The number of days of year `y` in the proleptic Gregorian calendar. -/
def DaysInYear (y : Int) : Int :=
  if y % 4 ≠ 0 then 365
  else if y % 100 ≠ 0 then 366
  else if y % 400 ≠ 0 then 365
  else 366

/-- The day number of the first day of year `y`. -/
def DayFromYear (y : Int) : Int :=
  365 * (y - 1970) + (y - 1969) / 4 - (y - 1901) / 100 + (y - 1601) / 400

/-- The year that contains day number `d`: the largest `y` with
`DayFromYear y ≤ d`. The mean year has 146097 / 400 days, which locates the
year up to one; the two comparisons settle it. -/
def YearFromDay (d : Int) : Int :=
  let y0 := 1970 + (400 * d) / 146097
  if d < DayFromYear y0 then y0 - 1
  else if DayFromYear (y0 + 1) ≤ d then y0 + 1
  else y0

/-- The year of a time value. -/
def YearFromTime (t : Int) : Int := YearFromDay (Day t)

/-- The value 1 in a leap year and 0 otherwise. -/
def InLeapYear (t : Int) : Int :=
  if DaysInYear (YearFromTime t) = 365 then 0 else 1

/-- The zero-based index of the day within its year. -/
def DayWithinYear (t : Int) : Int := Day t - DayFromYear (YearFromTime t)

/-- The zero-based index, within a year, of the first day of month `mn`
(0 = January), `leap` being 1 in a leap year and 0 otherwise. -/
def monthStart (leap : Int) (mn : Int) : Int :=
  if mn = 0 then 0
  else if mn = 1 then 31
  else if mn = 2 then 59 + leap
  else if mn = 3 then 90 + leap
  else if mn = 4 then 120 + leap
  else if mn = 5 then 151 + leap
  else if mn = 6 then 181 + leap
  else if mn = 7 then 212 + leap
  else if mn = 8 then 243 + leap
  else if mn = 9 then 273 + leap
  else if mn = 10 then 304 + leap
  else 334 + leap

/-- The month (0 = January) of a time value. -/
def MonthFromTime (t : Int) : Int :=
  let d := DayWithinYear t
  let leap := InLeapYear t
  if d < 31 then 0
  else if d < 59 + leap then 1
  else if d < 90 + leap then 2
  else if d < 120 + leap then 3
  else if d < 151 + leap then 4
  else if d < 181 + leap then 5
  else if d < 212 + leap then 6
  else if d < 243 + leap then 7
  else if d < 273 + leap then 8
  else if d < 304 + leap then 9
  else if d < 334 + leap then 10
  else 11

/-- The day of the month (1-based) of a time value. -/
def DateFromTime (t : Int) : Int :=
  DayWithinYear t - monthStart (InLeapYear t) (MonthFromTime t) + 1

/-- The abstract operation `MakeDay(year, month, date)`: the day number of the
first day of the month `month modulo 12` of the year `year + floor(month / 12)`,
moved by `date - 1` days. -/
def MakeDay (year month date : Int) : Int :=
  let ym := year + month / 12
  let mn := month % 12
  let leap := if DaysInYear ym = 365 then 0 else 1
  DayFromYear ym + monthStart leap mn + date - 1

/-- The abstract operation `MakeTime(hour, min, sec, ms)`. -/
def MakeTime (hour min sec ms : Int) : Int :=
  hour * msPerHour + min * msPerMinute + sec * msPerSecond + ms

/-- The abstract operation `MakeDate(day, time)`. -/
def MakeDate (day time : Int) : Int := day * msPerDay + time

/-! ## The `Date` object -/

/-- The year the `Date` constructor uses for a year argument: an argument from
0 to 99 stands for the years 1900 to 1999. -/
def fullYearOfArgument (year : Int) : Int :=
  if 0 ≤ year ∧ year ≤ 99 then 1900 + year else year

/-- The constructor `new Date(year, monthIndex, date)`: local midnight. -/
def newDate (year monthIndex date : Int) : Int :=
  MakeDate (MakeDay (fullYearOfArgument year) monthIndex date) (MakeTime 0 0 0 0)

/-- The method `getFullYear()`. -/
def getFullYear (t : Int) : Int := YearFromTime t

/-- The method `getMonth()`. -/
def getMonth (t : Int) : Int := MonthFromTime t

/-- The method `getDate()`. -/
def getDate (t : Int) : Int := DateFromTime t

/-- The method `setDate(date)`: the day of the month is replaced, the time
within the day is kept. -/
def setDate (t : Int) (date : Int) : Int :=
  MakeDate (MakeDay (YearFromTime t) (MonthFromTime t) date) (TimeWithinDay t)

/-- The method `setHours(hour, min, sec, ms)`: the day is kept. -/
def setHours (t : Int) (hour min sec ms : Int) : Int :=
  MakeDate (Day t) (MakeTime hour min sec ms)

/-- The method `setFullYear(year, month, date)`: the time within the day is
kept. Unlike the constructor it takes the year as written. -/
def setFullYear (t : Int) (year month date : Int) : Int :=
  MakeDate (MakeDay year month date) (TimeWithinDay t)

/-! ## date-fns -/

/-- The date-fns function `startOfMonth`: `setDate(1)` then
`setHours(0, 0, 0, 0)`. -/
def startOfMonth (date : Int) : Int :=
  setHours (setDate date 1) 0 0 0 0

/-- The date-fns function `endOfMonth`:
`setFullYear(getFullYear(), getMonth() + 1, 0)` then
`setHours(23, 59, 59, 999)`. -/
def endOfMonth (date : Int) : Int :=
  let month := getMonth date
  setHours (setFullYear date (getFullYear date) (month + 1) 0) 23 59 59 999

/-- The loop of `eachDayOfInterval`: while `currentDate ≤ endTime` the current
date is pushed and moved on by `setDate(getDate() + 1)`, `setHours(0, 0, 0, 0)`.
The first argument bounds the number of iterations; `none` means the bound was
reached with the loop condition still true. -/
def eachDayLoop (endTime : Int) : Nat → Int → List Int → Option (List Int)
  | 0, currentDate, dates => if currentDate ≤ endTime then none else some dates
  | fuel + 1, currentDate, dates =>
    if currentDate ≤ endTime then
      eachDayLoop endTime fuel
        (setHours (setDate currentDate (getDate currentDate + 1)) 0 0 0 0)
        (dates ++ [currentDate])
    else some dates

/-- The date-fns function `eachDayOfInterval({ start, end })` (step 1). An
interval that ends before it starts raises `RangeError`. The loop is given one
iteration per day from the day of `start` to the day of `end_`, which is what
it needs (`eachDayLoop_enough`). -/
def eachDayOfInterval (start end_ : Int) : Except String (List Int) :=
  if ¬ (start ≤ end_) then Except.error "RangeError: Invalid interval"
  else
    match eachDayLoop end_ (Day end_ - Day start + 1).toNat (setHours start 0 0 0 0) [] with
    | some dates => Except.ok dates
    | none => Except.error "iteration bound reached"

/-- The local midnights of `n` consecutive days, the first having day number
`c`. -/
def midnightsFrom (c : Int) : Nat → List Int
  | 0 => []
  | n + 1 => MakeDate c 0 :: midnightsFrom (c + 1) n

/-- The digits date-fns prints for the token `yyyy`: the year of the era, which
is `1 - y` for a year `y ≤ 0`. -/
def eraYear (signedYear : Int) : Int :=
  if signedYear > 0 then signedYear else 1 - signedYear

/-- The call `format(date, 'yyyy-MM-dd')`. It raises `RangeError` on
`Invalid Date`. The text consists of the era year padded to four digits or
more, the month and the day of the month padded to two digits each, separated
by hyphens: two texts are equal exactly when the three numbers are, and the
embedding keeps the three numbers. -/
def format_yyyy_MM_dd (date : Option Int) : Except String (Int × Int × Int) :=
  match date with
  | none => Except.error "RangeError: Invalid time value"
  | some t => Except.ok (eraYear (getFullYear t), getMonth t + 1, getDate t)

/-- The abbreviated month names of the default (en-US) locale. -/
def monthAbbreviation (monthIndex : Int) : String :=
  if monthIndex = 0 then "Jan"
  else if monthIndex = 1 then "Feb"
  else if monthIndex = 2 then "Mar"
  else if monthIndex = 3 then "Apr"
  else if monthIndex = 4 then "May"
  else if monthIndex = 5 then "Jun"
  else if monthIndex = 6 then "Jul"
  else if monthIndex = 7 then "Aug"
  else if monthIndex = 8 then "Sep"
  else if monthIndex = 9 then "Oct"
  else if monthIndex = 10 then "Nov"
  else "Dec"

/-- The date-fns helper `addLeadingZeros(number, targetLength)`. -/
def addLeadingZeros (number : Int) (targetLength : Nat) : String :=
  let sign := if number < 0 then "-" else ""
  let digits := toString number.natAbs
  sign ++ String.mk (List.replicate (targetLength - digits.length) '0') ++ digits

/-- The call `format(date, 'MMM dd')`, for instance `Mar 01`. It raises
`RangeError` on `Invalid Date`. -/
def format_MMM_dd (date : Option Int) : Except String String :=
  match date with
  | none => Except.error "RangeError: Invalid time value"
  | some t => Except.ok (monthAbbreviation (getMonth t) ++ " " ++ addLeadingZeros (getDate t) 2)

/-! ## Arrays with callbacks that may throw -/

/-- The method `Array.prototype.filter` with a callback that may throw: the
first exception ends the traversal. -/
def filterE {α : Type} (p : α → Except String Bool) : List α → Except String (List α)
  | [] => Except.ok []
  | x :: xs =>
    match p x with
    | Except.error e => Except.error e
    | Except.ok b =>
      match filterE p xs with
      | Except.error e => Except.error e
      | Except.ok ys => Except.ok (if b then x :: ys else ys)

/-- The method `Array.prototype.map` with a callback that may throw. -/
def mapE {α β : Type} (f : α → Except String β) : List α → Except String (List β)
  | [] => Except.ok []
  | x :: xs =>
    match f x with
    | Except.error e => Except.error e
    | Except.ok y =>
      match mapE f xs with
      | Except.error e => Except.error e
      | Except.ok ys => Except.ok (y :: ys)

/-! ## The Reports view (`Reports.js`) -/

/-- An expense record as the view receives it. The field `date` holds the
`Date` that `new Date(expense.date)` yields: a local time value, or `none`
(`Invalid Date`) when the text is missing or cannot be parsed. -/
structure Expense where
  id : Nat
  description : String
  amount : ℚ
  category : String
  date : Option Int
  deriving DecidableEq

/-- One bar of the daily chart. -/
structure DailyEntry where
  day : String
  amount : ℚ
  count : Nat
  deriving DecidableEq

/-- The comparison inside the filter of `generateDailyData`:
`format(new Date(expense.date), 'yyyy-MM-dd') === format(day, 'yyyy-MM-dd')`,
the left operand being evaluated first. -/
def sameDay (day : Int) (expense : Expense) : Except String Bool :=
  match format_yyyy_MM_dd expense.date with
  | Except.error e => Except.error e
  | Except.ok a =>
    match format_yyyy_MM_dd (some day) with
    | Except.error e => Except.error e
    | Except.ok b => Except.ok (decide (a = b))

/-- The callback that `generateDailyData` maps over the days. -/
def dailyEntry (expenses : List Expense) (day : Int) : Except String DailyEntry :=
  match filterE (sameDay day) expenses with
  | Except.error e => Except.error e
  | Except.ok dayExpenses =>
    let total := dayExpenses.foldl (fun sum expense => sum + expense.amount) 0
    match format_MMM_dd (some day) with
    | Except.error e => Except.error e
    | Except.ok label => Except.ok { day := label, amount := total, count := dayExpenses.length }

/-- The function `generateDailyData` of `Reports.js`, with the state it reads
(`expenses`, `selectedMonth`, `selectedYear`) as arguments. -/
def generateDailyData (expenses : List Expense) (selectedMonth selectedYear : Int) :
    Except String (List DailyEntry) :=
  let startDate := startOfMonth (newDate selectedYear (selectedMonth - 1) 1)
  let endDate := endOfMonth (newDate selectedYear (selectedMonth - 1) 1)
  match eachDayOfInterval startDate endDate with
  | Except.error e => Except.error e
  | Except.ok days => mapE (dailyEntry expenses) days

/-- The response body of `GET /expenses/summary`. The view reads every field
defensively (`summary?.field || fallback`), so each one may be missing. The
breakdown is kept as the list `Object.entries` enumerates. -/
structure Summary where
  total_expenses : Option ℚ
  total_count : Option Nat
  category_breakdown : Option (List (String × ℚ))
  budget_warning : Option String
  deriving DecidableEq

/-- The state of the `Reports` component. -/
structure ReportsState where
  summary : Option Summary
  expenses : List Expense
  loading : Bool
  selectedMonth : Int
  selectedYear : Int
  deriving DecidableEq

/-- The remote service as `axios.get` sees it: the response to a `GET` of a
path, or a failure. -/
structure Api where
  getSummary : String → Except String Summary
  getExpenses : String → Except String (List Expense)

/-- The path of the summary request: `/expenses/summary?month=${selectedMonth}`. -/
def summaryPath (s : ReportsState) : String :=
  "/expenses/summary?month=" ++ toString s.selectedMonth

/-- The path of the list request: `/expenses?month=${selectedMonth}`. -/
def expensesPath (s : ReportsState) : String :=
  "/expenses?month=" ++ toString s.selectedMonth

/-- The function `fetchReportsData`: both requests are awaited together; when
both succeed the two pieces of state are replaced, otherwise a toast is shown
and they are left alone; `loading` becomes false in every case. The second
component is the toast, if any. -/
def fetchReportsData (api : Api) (s : ReportsState) : ReportsState × Option String :=
  match api.getSummary (summaryPath s), api.getExpenses (expensesPath s) with
  | Except.ok summaryData, Except.ok expensesData =>
    ({ s with summary := some summaryData, expenses := expensesData, loading := false }, none)
  | _, _ => ({ s with loading := false }, some "Failed to fetch reports data")

/-- The JavaScript expression `x || fallback` for a number that may be missing:
`undefined` and `0` are falsy. -/
def orFallback (x : Option ℚ) (fallback : ℚ) : ℚ :=
  match x with
  | none => fallback
  | some v => if v = 0 then fallback else v

/-- The number shown as "Total Spent": `summary?.total_expenses || 0`. -/
def totalSpent (s : ReportsState) : ℚ :=
  orFallback (s.summary.bind (fun x => x.total_expenses)) 0

/-- The number shown under "Total Spent": `summary?.total_count || 0`. -/
def transactionCount (s : ReportsState) : Nat :=
  match s.summary.bind (fun x => x.total_count) with
  | none => 0
  | some n => n

/-- The divisor of "Average Daily":
`new Date(selectedYear, selectedMonth, 0).getDate()`. -/
def averageDailyDivisor (s : ReportsState) : Int :=
  getDate (newDate s.selectedYear s.selectedMonth 0)

/-- The number shown as "Average Daily". -/
def averageDaily (s : ReportsState) : ℚ :=
  totalSpent s / (averageDailyDivisor s : ℚ)

/-- The entries of `summary?.category_breakdown || {}`. -/
def breakdownEntries (s : ReportsState) : List (String × ℚ) :=
  match s.summary.bind (fun x => x.category_breakdown) with
  | none => []
  | some entries => entries

/-- The constant `pieData`: one `{ name, value }` per entry of the breakdown,
and the empty list when there is no breakdown. -/
def pieData (s : ReportsState) : List (String × ℚ) :=
  match s.summary.bind (fun x => x.category_breakdown) with
  | some entries => entries.map (fun entry => (entry.1, entry.2))
  | none => []

/-- The divisor of the percentage column: `summary?.total_expenses || 1`. -/
def percentageDivisor (s : ReportsState) : ℚ :=
  orFallback (s.summary.bind (fun x => x.total_expenses)) 1

/-- The number handed to `toFixed(1)` in the breakdown table:
`(amount / (summary?.total_expenses || 1)) * 100`. -/
def percentageValue (s : ReportsState) (amount : ℚ) : ℚ :=
  amount / percentageDivisor s * 100

/-- The method `toFixed(1)`, as the number its decimal text denotes: the
nearest multiple of one tenth, the larger in magnitude of two equally near. -/
def toFixed1 (x : ℚ) : ℚ :=
  if x < 0 then -((⌊(-x) * 10 + 1 / 2⌋ : Int) : ℚ) / 10
  else ((⌊x * 10 + 1 / 2⌋ : Int) : ℚ) / 10

/-- The rows of the breakdown table: category, amount and percentage. -/
def breakdownRows (s : ReportsState) : List (String × ℚ × ℚ) :=
  (breakdownEntries s).map
    (fun entry => (entry.1, entry.2, toFixed1 (percentageValue s entry.2)))

/-! ## The summary the remote service computes -/

/-- Modelled from the spec: the grouping step of the summary computation of the
remote service, whose code is not among the source files. The amount is added
to the entry of its category; a category seen for the first time gets a new
entry at the end. -/
def addToCategory (category : String) (amount : ℚ) :
    List (String × ℚ) → List (String × ℚ)
  | [] => [(category, amount)]
  | entry :: rest =>
    if entry.1 = category then (entry.1, entry.2 + amount) :: rest
    else entry :: addToCategory category amount rest

/-- Modelled from the spec: the category breakdown of the remote service
(section 4.2, step 4): the records are grouped by category and the amounts of
each group are added; a category without records has no entry. -/
def categoryBreakdown (filtered : List Expense) : List (String × ℚ) :=
  filtered.foldl (fun acc expense => addToCategory expense.category expense.amount acc) []

/-- Modelled from the spec: the summary of the remote service over the
filtered records (section 4.2, steps 2 to 4): the total amount, the number of
records and the category breakdown. -/
def summarize (filtered : List Expense) : Summary :=
  { total_expenses := some (filtered.map (fun expense => expense.amount)).sum
    total_count := some filtered.length
    category_breakdown := some (categoryBreakdown filtered)
    budget_warning := none }

/-! ## The calendar the specification speaks of -/

/-- Leap years of the Gregorian calendar. -/
def isLeapYear (year : Int) : Bool :=
  decide (year % 4 = 0 ∧ (year % 100 ≠ 0 ∨ year % 400 = 0))

/-- The number of days of month `month` (1 = January) of year `year`. -/
def daysInMonth (month year : Int) : Int :=
  if month = 2 then (if isLeapYear year then 29 else 28)
  else if month = 4 ∨ month = 6 ∨ month = 9 ∨ month = 11 then 30
  else 31

/-- The expense is dated on day `day` of month `month` (1 = January) of year
`year`. A record without a valid date is on no day. -/
def onDay (year month day : Int) (expense : Expense) : Bool :=
  match expense.date with
  | none => false
  | some t => decide (YearFromTime t = year ∧ MonthFromTime t + 1 = month ∧ DateFromTime t = day)

/-- The expense is dated in month `month` (1 = January) of year `year`. -/
def inSelectedMonth (month year : Int) (expense : Expense) : Bool :=
  match expense.date with
  | none => false
  | some t => decide (YearFromTime t = year ∧ MonthFromTime t + 1 = month)

/-- The sum of the amounts of a list of expenses. -/
def sumAmounts (expenses : List Expense) : ℚ :=
  (expenses.map (fun expense => expense.amount)).sum

/-- The bar the specification describes for day `day` of month `month` of year
`year`: the label in the form `MMM dd`, the sum of the amounts of the expenses
dated on that day, and their number. -/
def expectedEntry (expenses : List Expense) (year month day : Int) : DailyEntry :=
  { day := monthAbbreviation (month - 1) ++ " " ++ addLeadingZeros day 2
    amount := sumAmounts (expenses.filter (onDay year month day))
    count := (expenses.filter (onDay year month day)).length }

/-- The test the filter of `generateDailyData` performs on an expense with a
valid date, for the day `day` of month `month` of year `year`: the three
numbers of the two formatted texts agree. -/
def keyMatches (year month day : Int) (expense : Expense) : Bool :=
  match expense.date with
  | none => false
  | some t =>
    decide ((eraYear (getFullYear t), getMonth t + 1, getDate t) = (eraYear year, month, day))

/-- The bar `generateDailyData` builds for day `day` of month `month` of year
`year` from expenses whose dates are all valid. -/
def computedEntry (expenses : List Expense) (year month day : Int) : DailyEntry :=
  { day := monthAbbreviation (month - 1) ++ " " ++ addLeadingZeros day 2
    amount := sumAmounts (expenses.filter (keyMatches year month day))
    count := (expenses.filter (keyMatches year month day)).length }

/-- The date of the expense is a valid `Date`. -/
def hasValidDate (expense : Expense) : Bool := expense.date.isSome

/-- The date of the expense is a valid date of the calendar: a valid `Date`
in year 1 or later. (For a year `y ≤ 0` the token `yyyy` prints the era year
`1 - y`, see `eraYear`, so the text of such a date is also the text of a date
of year `1 - y`.) -/
def hasCalendarDate (expense : Expense) : Bool :=
  match expense.date with
  | none => false
  | some t => decide (1 ≤ YearFromTime t)

/-- The sum of the amounts of the bars of the daily chart. -/
def sumDaily (entries : List DailyEntry) : ℚ :=
  (entries.map (fun entry => entry.amount)).sum

/-- Modelled from the spec: the summary of the reporting aggregator for a
selected month and year (section 4.2, step 1 followed by `summarize`). -/
def reportSummary (expenses : List Expense) (month year : Int) : Summary :=
  summarize (expenses.filter (inSelectedMonth month year))

/-- The expenses of the scenario of section 8 of the specification. -/
def scenarioExpenses : List Expense :=
  [ { id := 1, description := "", amount := 100, category := "Food", date := some (newDate 2024 2 1) },
    { id := 2, description := "", amount := 50, category := "Food", date := some (newDate 2024 2 15) },
    { id := 3, description := "", amount := 25, category := "Bills", date := some (newDate 2024 2 2) } ]

/-- A record whose date is missing or cannot be parsed. -/
def expenseWithoutDate : Expense :=
  { id := 4, description := "", amount := 10, category := "Food", date := none }

/-- A record dated 5 March 1924. -/
def expenseOf1924 : Expense :=
  { id := 5, description := "", amount := 7, category := "Food", date := some (newDate 1924 2 5) }

/-- The label of day `day` of month `month` in the form `MMM dd`. -/
def dayLabel (month day : Int) : String :=
  monthAbbreviation (month - 1) ++ " " ++ addLeadingZeros day 2

/-- A remote service that answers every request with the summary and the list
of the scenario expenses. -/
def scenarioApi : Api :=
  { getSummary := fun _ => Except.ok (summarize scenarioExpenses)
    getExpenses := fun _ => Except.ok scenarioExpenses }

/-- The state of the view before anything was fetched, with a selection. -/
def emptyState (month year : Int) : ReportsState :=
  { summary := none, expenses := [], loading := false, selectedMonth := month, selectedYear := year }

/-- A record dated 1 March 2024. -/
def expenseOfMarch2024 : Expense :=
  { id := 6, description := "", amount := 10, category := "Food", date := some (newDate 2024 2 1) }

/-- A summary without a total whose breakdown holds an amount of 5. -/
def missingTotalSummary : Summary :=
  { total_expenses := none, total_count := none, category_breakdown := some [("Food", 5)],
    budget_warning := none }

/-- A summary whose total is 0 while its breakdown holds an amount of 5. -/
def zeroTotalSummary : Summary :=
  { total_expenses := some 0, total_count := some 1, category_breakdown := some [("Food", 5)],
    budget_warning := none }

deriving instance DecidableEq for Except

/-! ## The session (`AuthContext.js`) -/

/-- The durable client storage `localStorage`: the text kept under each key,
if any. -/
def Storage : Type := String → Option String

/-- The storage that holds nothing. -/
def emptyStorage : Storage := fun _ => none

/-- The method `localStorage.getItem(key)`; `none` is `null`. -/
def getItem (storage : Storage) (key : String) : Option String := storage key

/-- The method `localStorage.setItem(key, value)`. -/
def setItem (storage : Storage) (key value : String) : Storage :=
  fun k => if k = key then some value else storage k

/-- The method `localStorage.removeItem(key)`. -/
def removeItem (storage : Storage) (key : String) : Storage :=
  fun k => if k = key then none else storage k

/-- The identity the provider keeps in `user`. -/
structure User where
  email : String
  full_name : String
  deriving DecidableEq

/-- The state the provider reads and writes: its two pieces of component state
(`user`, `loading`), `localStorage`, and the process-wide default header
`axios.defaults.headers.common['Authorization']` (`none` when the header is not
there). -/
structure AuthState where
  user : Option User
  loading : Bool
  localStorage : Storage
  authorization : Option String

/-- The state when the process starts, over the storage left by earlier
processes: `useState(null)`, `useState(true)`, no default header. -/
def processStart (storage : Storage) : AuthState :=
  { user := none, loading := true, localStorage := storage, authorization := none }

/-- The body of a request. -/
inductive RequestBody
  | formData (fields : List (String × String))
  | json (fields : List (String × String))
  deriving DecidableEq

/-- A request handed to `axios`: the method is `POST` for `axios.post` and `PUT`
for `axios.put`. -/
structure Request where
  method : String
  url : String
  body : RequestBody
  headers : List (String × String)
  deriving DecidableEq

/-- The error of a rejected request, reduced to the value of
`error.response?.data?.detail` (`none` when the chain yields `undefined`). -/
structure AxiosError where
  detail : Option String
  deriving DecidableEq

/-- What an awaited `axios.post` settles to: a response with its `data`, or a
rejection. -/
inductive PostOutcome (α : Type)
  | resolved (data : α)
  | rejected (error : AxiosError)

/-- The body of the response of `POST /login`; the field may be missing. -/
structure LoginBody where
  access_token : Option String
  deriving DecidableEq

/-- The object `login` and `register` return. The field `error` is present on
failure only. -/
structure AuthResult where
  success : Bool
  error : Option String
  deriving DecidableEq

/-- The text JavaScript makes of a value that is a string or `undefined`, as in
`setItem(key, value)` and in a template literal. -/
def textOf (value : Option String) : String :=
  match value with
  | some text => text
  | none => "undefined"

/-- The JavaScript expression `x || fallback` for a text that may be missing:
`undefined` and the empty text are falsy. -/
def orText (x : Option String) (fallback : String) : String :=
  match x with
  | none => fallback
  | some text => if text = "" then fallback else text

/-- The identity the bootstrap effect installs. -/
def placeholderUser : User := { email := "user@example.com", full_name := "User" }

/-- The effect the provider runs once it is mounted (lines 18 to 26), with the
requests it sends: the token is read, and when it is truthy (a text that is not
empty) the default header and the placeholder identity are installed; `loading`
becomes false. -/
def bootstrap (s : AuthState) : AuthState × List Request :=
  match getItem s.localStorage "token" with
  | none => ({ s with loading := false }, [])
  | some token =>
    if token = "" then ({ s with loading := false }, [])
    else
      ({ s with
          authorization := some ("Bearer " ++ token)
          user := some placeholderUser
          loading := false }, [])

/-- The request of `login`: form data posted to `/login` with the content type
of a form. -/
def loginRequest (email password : String) : Request :=
  { method := "POST"
    url := "/login"
    body := RequestBody.formData [("username", email), ("password", password)]
    headers := [("Content-Type", "application/x-www-form-urlencoded")] }

/-- The part of `login` that runs once the request has settled, on the state of
that moment. A response whose `data` is `null` or `undefined` (`none`) makes
the destructuring throw, which the `catch` turns into a failure whose error has
no `response`. -/
def loginSettled (response : PostOutcome (Option LoginBody)) (email : String)
    (s : AuthState) : AuthState × AuthResult :=
  match response with
  | PostOutcome.resolved (some data) =>
    let access_token := textOf data.access_token
    ({ s with
        localStorage := setItem s.localStorage "token" access_token
        authorization := some ("Bearer " ++ access_token)
        user := some { email := email, full_name := "User" } },
      { success := true, error := none })
  | PostOutcome.resolved none => (s, { success := false, error := some "Login failed" })
  | PostOutcome.rejected error =>
    (s, { success := false, error := some (orText error.detail "Login failed") })

/-- The function `login(email, password)` called on state `s`, the request
settling to `response` with no other operation in between: the new state, the
returned object and the requests sent. -/
def login (response : PostOutcome (Option LoginBody)) (email password : String)
    (s : AuthState) : AuthState × AuthResult × List Request :=
  ((loginSettled response email s).1, (loginSettled response email s).2,
    [loginRequest email password])

/-- The request of `register`: a JSON body posted to `/register`. -/
def registerRequest (email password fullName : String) : Request :=
  { method := "POST"
    url := "/register"
    body := RequestBody.json [("email", email), ("password", password), ("full_name", fullName)]
    headers := [] }

/-- The function `register(email, password, fullName)`. -/
def register (response : PostOutcome Unit) (email password fullName : String)
    (s : AuthState) : AuthState × AuthResult × List Request :=
  match response with
  | PostOutcome.resolved _ =>
    (s, { success := true, error := none }, [registerRequest email password fullName])
  | PostOutcome.rejected error =>
    (s, { success := false, error := some (orText error.detail "Registration failed") },
      [registerRequest email password fullName])

/-- The function `logout()`. -/
def logout (s : AuthState) : AuthState × List Request :=
  ({ s with
      localStorage := removeItem s.localStorage "token"
      authorization := none
      user := none }, [])

/-- The function `updateUser(userData)`; `none` is `null`. -/
def updateUser (userData : Option User) (s : AuthState) : AuthState :=
  { s with user := userData }

/-- A call of the provider, together with what the remote service answers when
the call sends a request. -/
inductive AuthCall
  | bootstrap
  | login (email password : String) (response : PostOutcome (Option LoginBody))
  | register (email password fullName : String) (response : PostOutcome Unit)
  | logout
  | updateUser (userData : Option User)

/-- The state after one call. -/
def afterCall (s : AuthState) (call : AuthCall) : AuthState :=
  match call with
  | AuthCall.bootstrap => (bootstrap s).1
  | AuthCall.login email password response => (login response email password s).1
  | AuthCall.register email password fullName response =>
    (register response email password fullName s).1
  | AuthCall.logout => (logout s).1
  | AuthCall.updateUser userData => updateUser userData s

/-- The state after a sequence of calls, each completing before the next. -/
def afterCalls (s : AuthState) (calls : List AuthCall) : AuthState :=
  calls.foldl afterCall s

/-- The session is authenticated: `user` is not `null`. -/
def authenticated (s : AuthState) : Bool := s.user.isSome

/-- A credential is stored under the key `token`. -/
def tokenStored (s : AuthState) : Bool := (getItem s.localStorage "token").isSome

/-- Every `updateUser` of the sequence is called on an authenticated session
and with an identity that is not `null`. -/
def updatesKeepIdentity : AuthState → List AuthCall → Bool
  | _, [] => true
  | s, call :: calls =>
    (match call with
      | AuthCall.updateUser userData => authenticated s && userData.isSome
      | _ => true) && updatesKeepIdentity (afterCall s call) calls

/-- A storage with the text `token` under the key `token` and nothing else. -/
def storageWithToken (token : String) : Storage := setItem emptyStorage "token" token

/-- An identity used in the examples. -/
def sampleUser : User := { email := "u@x.com", full_name := "U" }

/-- A sequence of calls used in the examples: a failed login, a registration, a
profile update, a logout and a successful login. -/
def sampleCalls : List AuthCall :=
  [AuthCall.login "u@x.com" "wrong" (PostOutcome.rejected { detail := none }),
    AuthCall.register "u@x.com" "secret" "U" (PostOutcome.resolved ()),
    AuthCall.updateUser (some sampleUser), AuthCall.logout,
    AuthCall.login "u@x.com" "secret" (PostOutcome.resolved (some { access_token := some "xyz" }))]

/-- A successful login followed by a profile update. -/
def loginThenUpdate : List AuthCall :=
  [AuthCall.login "u@x.com" "secret" (PostOutcome.resolved (some { access_token := some "abc" })),
    AuthCall.updateUser (some sampleUser)]

/-- While the session is authenticated a token is stored and the default header
is `Bearer ` followed by it; while it is not, there is no default header. -/
def headerMatches (s : AuthState) : Prop :=
  (∀ u, s.user = some u →
      ∃ token, getItem s.localStorage "token" = some token ∧
        s.authorization = some ("Bearer " ++ token)) ∧
    (s.user = none → s.authorization = none)

/-- While the session is not authenticated no token is stored. -/
def signedOutClean (s : AuthState) : Prop :=
  s.user = none → getItem s.localStorage "token" = none

/-! ## The currency preference (`CurrencyContext.js`, `Navbar.js`) -/

/-- A currency preference. -/
structure Currency where
  code : String
  symbol : String
  name : String
  deriving DecidableEq

/-- The static list `currencies`. -/
def currencies : List Currency :=
  [ { code := "KSH", symbol := "KSh", name := "Kenyan Shilling" },
    { code := "USD", symbol := "$", name := "US Dollar" },
    { code := "EUR", symbol := "€", name := "Euro" },
    { code := "GBP", symbol := "£", name := "British Pound" } ]

/-- A JavaScript number: a finite value, kept exactly, `NaN`, or an infinity. -/
inductive JsNumber
  | finite (value : ℚ)
  | nan
  | infinity (negative : Bool)
  deriving DecidableEq

/-- What the callers hand to `formatAmount`: `undefined`, `null`, a number, or
a text. -/
inductive AmountInput
  | undefined
  | null
  | number (value : JsNumber)
  | text (s : String)
  deriving DecidableEq

/-- The white space and line terminators `parseFloat` skips at the start. -/
def isJsWhiteSpace (c : Char) : Bool :=
  [9, 10, 11, 12, 13, 32, 160, 5760, 8232, 8233, 8239, 8287, 12288, 65279].contains c.toNat ||
    (8192 ≤ c.toNat && c.toNat ≤ 8202)

/-- The number a list of decimal digits denotes. -/
def digitsValue (digits : List Char) : Nat :=
  digits.foldl (fun n c => 10 * n + (c.toNat - 48)) 0

/-- The exponent part at the start of `cs`, if there is one: `e` or `E`, an
optional sign and at least one digit. -/
def exponentPart (cs : List Char) : Int :=
  match cs with
  | [] => 0
  | e :: rest =>
    if e = 'e' ∨ e = 'E' then
      match rest with
      | [] => 0
      | sign :: afterSign =>
        if sign = '-' then
          (if (afterSign.span Char.isDigit).1 = [] then 0
            else -((digitsValue (afterSign.span Char.isDigit).1 : Nat) : Int))
        else if sign = '+' then ((digitsValue (afterSign.span Char.isDigit).1 : Nat) : Int)
        else ((digitsValue (rest.span Char.isDigit).1 : Nat) : Int)
    else 0

/-- The value of the longest start of `cs` that is an unsigned decimal literal
(`Infinity`, digits with an optional point, fraction and exponent, or a point
followed by digits), or `NaN` when no start of `cs` is one. -/
def parseUnsigned (cs : List Char) : JsNumber :=
  if "Infinity".toList.isPrefixOf cs then JsNumber.infinity false
  else
    let integerDigits := (cs.span Char.isDigit).1
    let afterInteger := (cs.span Char.isDigit).2
    let fractionDigits :=
      match afterInteger with
      | '.' :: rest => (rest.span Char.isDigit).1
      | _ => []
    let afterFraction :=
      match afterInteger with
      | '.' :: rest => (rest.span Char.isDigit).2
      | _ => afterInteger
    if integerDigits = [] ∧ fractionDigits = [] then JsNumber.nan
    else
      JsNumber.finite
        (((digitsValue integerDigits : ℚ) +
            (digitsValue fractionDigits : ℚ) / (10 : ℚ) ^ fractionDigits.length) *
          (10 : ℚ) ^ exponentPart afterFraction)

/-- The sign of a JavaScript number reversed. -/
def JsNumber.negate : JsNumber → JsNumber
  | JsNumber.finite value => JsNumber.finite (-value)
  | JsNumber.nan => JsNumber.nan
  | JsNumber.infinity negative => JsNumber.infinity (!negative)

/-- The function `parseFloat` on a text: leading white space is skipped, an
optional sign is read, and the longest start that is a decimal literal gives
the value; what follows it is ignored. -/
def parseFloatText (s : String) : JsNumber :=
  match s.toList.dropWhile isJsWhiteSpace with
  | '-' :: rest => (parseUnsigned rest).negate
  | '+' :: rest => parseUnsigned rest
  | cs => parseUnsigned cs

/-- The call `parseFloat(amount)`: the argument is first turned into a text, so
`undefined` and `null` give `NaN` and a number gives itself. -/
def parseFloat (amount : AmountInput) : JsNumber :=
  match amount with
  | AmountInput.undefined => JsNumber.nan
  | AmountInput.null => JsNumber.nan
  | AmountInput.number value => value
  | AmountInput.text s => parseFloatText s

/-- The JavaScript expression `x || 0` for a number: `NaN` and `0` are falsy. -/
def orZero (x : JsNumber) : JsNumber :=
  match x with
  | JsNumber.nan => JsNumber.finite 0
  | JsNumber.finite value => JsNumber.finite value
  | JsNumber.infinity negative => JsNumber.infinity negative

/-- The decimal numeral of `n < 100` on two digits. -/
def twoDigits (n : Nat) : String :=
  if n < 10 then "0" ++ toString n else toString n

/-- The decimal numeral of `n < 1000` on three digits. -/
def threeDigits (n : Nat) : String :=
  if n < 10 then "00" ++ toString n
  else if n < 100 then "0" ++ toString n
  else toString n

/-- The decimal numeral of `n` with a comma before every group of three digits;
the first argument bounds the number of groups. -/
def groupThousandsLoop : Nat → Nat → String
  | 0, n => toString n
  | fuel + 1, n =>
    if n < 1000 then toString n
    else groupThousandsLoop fuel (n / 1000) ++ "," ++ threeDigits (n % 1000)

/-- The decimal numeral of `n` as the en-US locale groups it: `1,234,567`. -/
def groupThousands (n : Nat) : String := groupThousandsLoop n n

/-- The hundredths of the magnitude of `value`, rounded to the nearest integer,
a tie going away from zero. -/
def roundedHundredths (value : ℚ) : Nat :=
  (⌊|value| * 100 + 1 / 2⌋ : Int).toNat

/-- The call `num.toLocaleString('en-US', { minimumFractionDigits: 2,
maximumFractionDigits: 2 })`: the sign of a negative number, the integer part
in groups of three, a point and two digits. -/
def toLocaleString (num : JsNumber) : String :=
  match num with
  | JsNumber.finite value =>
    (if value < 0 then "-" else "") ++ groupThousands (roundedHundredths value / 100) ++ "." ++
      twoDigits (roundedHundredths value % 100)
  | JsNumber.nan => "NaN"
  | JsNumber.infinity negative => if negative then "-∞" else "∞"

/-- The function `formatAmount` of the provider, for the current currency. -/
def formatAmount (currency : Currency) (amount : AmountInput) : String :=
  let num := orZero (parseFloat amount)
  currency.symbol ++ toLocaleString num

/-- The US dollar of the static list. -/
def usDollar : Currency := { code := "USD", symbol := "$", name := "US Dollar" }

/-- The test whether `cs` starts with a digit or with a point followed by a
digit. -/
def startsWithDecimal (cs : List Char) : Bool :=
  match cs with
  | c :: d :: _ => c.isDigit || (c = '.' && d.isDigit)
  | [c] => c.isDigit
  | [] => false

/-- The sign at the start of `cs`, if there is one, removed. -/
def dropSign (cs : List Char) : List Char :=
  match cs with
  | '-' :: rest => rest
  | '+' :: rest => rest
  | other => other

/-- The test whether a text starts, after white space and an optional sign,
with a digit, with a point followed by a digit, or with `Infinity`. -/
def startsWithNumber (s : String) : Bool :=
  "Infinity".toList.isPrefixOf (dropSign (s.toList.dropWhile isJsWhiteSpace)) ||
    startsWithDecimal (dropSign (s.toList.dropWhile isJsWhiteSpace))

/-- The four hexadecimal digits of `n < 65536`, in lower case. -/
def hexDigits4 (n : Nat) : List Char :=
  [Nat.digitChar (n / 4096 % 16), Nat.digitChar (n / 256 % 16), Nat.digitChar (n / 16 % 16),
    Nat.digitChar (n % 16)]

/-- The characters `JSON.stringify` writes for one character of a text: the
quotation mark, the backslash and the control characters are escaped. -/
def jsonQuoteChar (c : Char) : List Char :=
  if c.toNat = 34 then [Char.ofNat 92, Char.ofNat 34]
  else if c.toNat = 92 then [Char.ofNat 92, Char.ofNat 92]
  else if c.toNat = 8 then [Char.ofNat 92, 'b']
  else if c.toNat = 12 then [Char.ofNat 92, 'f']
  else if c.toNat = 10 then [Char.ofNat 92, 'n']
  else if c.toNat = 13 then [Char.ofNat 92, 'r']
  else if c.toNat = 9 then [Char.ofNat 92, 't']
  else if c.toNat < 32 then [Char.ofNat 92, 'u'] ++ hexDigits4 c.toNat
  else [c]

/-- The text `JSON.stringify` gives for a text. -/
def jsonQuote (s : String) : String :=
  String.mk ([Char.ofNat 34] ++ (s.toList.map jsonQuoteChar).flatten ++ [Char.ofNat 34])

/-- The value `JSON.stringify(currency)` as `setItem` stores it: the members of
a currency record in the order of the literals of `currencies`, without white
space; for `undefined` the call gives `undefined`, which `setItem` stores as
the text `undefined`. -/
def jsonStringify (currency : Option Currency) : String :=
  match currency with
  | none => "undefined"
  | some c =>
    String.mk [Char.ofNat 123] ++ jsonQuote "code" ++ ":" ++ jsonQuote c.code ++ "," ++
      jsonQuote "symbol" ++ ":" ++ jsonQuote c.symbol ++ "," ++
      jsonQuote "name" ++ ":" ++ jsonQuote c.name ++ String.mk [Char.ofNat 125]

/-- The white space of the JSON grammar. -/
def isJsonWhiteSpace (c : Char) : Bool :=
  c.toNat = 32 || c.toNat = 9 || c.toNat = 10 || c.toNat = 13

/-- The characters of a JSON text literal after its opening quotation mark, up
to the closing one, and what follows it. A control character ends the reading
without a result, and so does an escape other than the two-character ones; the
escape `\u` is among those and is not read by this embedding. -/
def jsonStringBody : List Char → Option (List Char × List Char)
  | [] => none
  | [c] => if c.toNat = 34 then some ([], []) else none
  | c :: d :: rest =>
    if c.toNat = 34 then some ([], d :: rest)
    else if c.toNat = 92 then
      (if d.toNat = 34 ∨ d.toNat = 92 ∨ d.toNat = 47 then
          (jsonStringBody rest).map (fun r => (d :: r.1, r.2))
        else if d = 'b' then (jsonStringBody rest).map (fun r => (Char.ofNat 8 :: r.1, r.2))
        else if d = 'f' then (jsonStringBody rest).map (fun r => (Char.ofNat 12 :: r.1, r.2))
        else if d = 'n' then (jsonStringBody rest).map (fun r => (Char.ofNat 10 :: r.1, r.2))
        else if d = 'r' then (jsonStringBody rest).map (fun r => (Char.ofNat 13 :: r.1, r.2))
        else if d = 't' then (jsonStringBody rest).map (fun r => (Char.ofNat 9 :: r.1, r.2))
        else none)
    else if c.toNat < 32 then none
    else (jsonStringBody (d :: rest)).map (fun r => (c :: r.1, r.2))

/-- A JSON text literal at the start of `cs`, after white space. -/
def jsonStringToken (cs : List Char) : Option (String × List Char) :=
  match cs.dropWhile isJsonWhiteSpace with
  | [] => none
  | c :: rest =>
    if c.toNat = 34 then (jsonStringBody rest).map (fun r => (String.mk r.1, r.2)) else none

/-- The punctuation character with code `code` at the start of `cs`, after
white space; the result is what follows it. -/
def jsonPunctuation (code : Nat) (cs : List Char) : Option (List Char) :=
  match cs.dropWhile isJsonWhiteSpace with
  | [] => none
  | c :: rest => if c.toNat = code then some rest else none

/-- The member `"key": "value"` at the start of `cs`; the result is the value
and what follows it. -/
def jsonTextMember (key : String) (cs : List Char) : Option (String × List Char) :=
  match jsonStringToken cs with
  | none => none
  | some (found, afterKey) =>
    if found = key then
      match jsonPunctuation 58 afterKey with
      | none => none
      | some afterColon => jsonStringToken afterColon
    else none

/-- The call `JSON.parse(saved)` on the texts this embedding reads: a JSON
object with the members `code`, `symbol` and `name` in this order, each a text
written without the escape `\u`. On such a text `JSON.parse` returns the
record. For every other text the result is `none`: there `JSON.parse` throws a
`SyntaxError` or returns a value of another shape, and which of the two is
outside this embedding. -/
def jsonParseCurrency (saved : String) : Option Currency :=
  match jsonPunctuation 123 saved.toList with
  | none => none
  | some afterOpen =>
    match jsonTextMember "code" afterOpen with
    | none => none
    | some (code, afterCode) =>
      match jsonPunctuation 44 afterCode with
      | none => none
      | some afterComma =>
        match jsonTextMember "symbol" afterComma with
        | none => none
        | some (symbol, afterSymbol) =>
          match jsonPunctuation 44 afterSymbol with
          | none => none
          | some afterComma2 =>
            match jsonTextMember "name" afterComma2 with
            | none => none
            | some (name, afterName) =>
              match jsonPunctuation 125 afterName with
              | none => none
              | some afterClose =>
                if afterClose.dropWhile isJsonWhiteSpace = [] then
                  some { code := code, symbol := symbol, name := name }
                else none

/-- The state of `CurrencyProvider` together with the browser storage. The
currency is `none` when the state holds `undefined`. -/
structure CurrencyState where
  currency : Option Currency
  localStorage : Storage

/-- The effect of the provider, which runs after the first render and after
every change of `currency`: the currency is saved under the key `currency`. -/
def saveCurrency (s : CurrencyState) : CurrencyState :=
  { s with localStorage := setItem s.localStorage "currency" (jsonStringify s.currency) }

/-- The provider as it is mounted on `storage`: the initial state is the saved
currency if a non-empty text is saved and the first entry of `currencies`
otherwise, and the effect then saves it. The result is `none` when the saved
text is one that `jsonParseCurrency` does not read. -/
def mountCurrencyProvider (storage : Storage) : Option CurrencyState :=
  match getItem storage "currency" with
  | none => some (saveCurrency { currency := currencies.get? 0, localStorage := storage })
  | some saved =>
    if saved = "" then
      some (saveCurrency { currency := currencies.get? 0, localStorage := storage })
    else
      match jsonParseCurrency saved with
      | none => none
      | some c => some (saveCurrency { currency := some c, localStorage := storage })

/-- The call `setCurrency(value)` followed by the effect it triggers. -/
def setCurrency (value : Option Currency) (s : CurrencyState) : CurrencyState :=
  saveCurrency { s with currency := value }

/-- The `onChange` handler of the selector in `Navbar.js`, for the value of the
chosen option: `currencies.find` gives `undefined` when no entry has the code. -/
def selectCurrency (value : String) (s : CurrencyState) : CurrencyState :=
  setCurrency (currencies.find? (fun c => c.code == value)) s

/-- The values of the options the selector of `Navbar.js` offers:
`currencies.map(curr => <option value={curr.code}>)`. -/
def currencyOptions : List String := currencies.map (fun curr => curr.code)

/-- What happens to the provider: the user chooses the option at a position of
the selector, or the page is reloaded. -/
inductive CurrencyEvent
  | select (position : Fin currencyOptions.length)
  | reload

/-- The provider after one event. A reload mounts the provider again on the
storage as it is. -/
def afterCurrencyEvent (s : CurrencyState) (event : CurrencyEvent) : Option CurrencyState :=
  match event with
  | CurrencyEvent.select position => some (selectCurrency (currencyOptions.get position) s)
  | CurrencyEvent.reload => mountCurrencyProvider s.localStorage

/-- The provider after a sequence of events, from the state `s`. -/
def afterCurrencyEvents (s : CurrencyState) : List CurrencyEvent → Option CurrencyState
  | [] => some s
  | event :: events =>
    match afterCurrencyEvent s event with
    | none => none
    | some next => afterCurrencyEvents next events

/-- The provider started on `storage` and taken through a sequence of events. -/
def currencyRun (storage : Storage) (events : List CurrencyEvent) : Option CurrencyState :=
  match mountCurrencyProvider storage with
  | none => none
  | some s => afterCurrencyEvents s events

/-- A state of the provider in which the currency is an entry of `currencies`
and is the one saved. -/
def listedAndSaved (s : CurrencyState) : Prop :=
  ∃ c ∈ currencies, s.currency = some c ∧
    getItem s.localStorage "currency" = some (jsonStringify (some c))

/-! ## Two logins in flight (`AuthContext.js`) -/

/-- Two calls of `login` on state `s`, the second made while the request of the
first is still in flight, the response of the first arriving after that of the
second: the part of the second call after its `await` runs first, then that of
the first call, each on the state of its moment. The result is the final
state, what the first and the second call return, and the requests in the
order they were sent. -/
def loginsOutOfOrder (response1 response2 : PostOutcome (Option LoginBody))
    (email1 password1 email2 password2 : String) (s : AuthState) :
    AuthState × AuthResult × AuthResult × List Request :=
  ((loginSettled response1 email1 (loginSettled response2 email2 s).1).1,
    (loginSettled response1 email1 (loginSettled response2 email2 s).1).2,
    (loginSettled response2 email2 s).2,
    [loginRequest email1 password1, loginRequest email2 password2])

/-! ## The route guard (`App.js`) -/

/-- What a component renders, as far as `ProtectedRoute` is concerned. -/
inductive Rendered
  | loadingPlaceholder
  | children
  | navigate (target : String)
  deriving DecidableEq

/-- The component `ProtectedRoute`, on the `user` and `loading` of `useAuth()`. -/
def ProtectedRoute (s : AuthState) : Rendered :=
  if s.loading then Rendered.loadingPlaceholder
  else
    match s.user with
    | some _ => Rendered.children
    | none => Rendered.navigate "/login"

/-! ## The password forms (`Register.js`, `ResetPassword.js`, `Profile.js`) -/

/-- A message shown by `react-hot-toast`. -/
inductive Toast
  | error (message : String)
  | success (message : String)
  deriving DecidableEq

/-- The `length` of a JavaScript text: the number of its UTF-16 code units. -/
def utf16Length (s : String) : Nat :=
  (s.toList.map (fun c => if c.toNat < 65536 then 1 else 2)).sum

/-- What a submit handler has done when it is over: the state it leaves, the
messages shown, the requests sent, and the navigation asked for, with the delay
in milliseconds after which it takes place. -/
structure Submitted (σ : Type) where
  state : σ
  toasts : List Toast
  requests : List Request
  navigation : Option (String × Nat)

/-- The `formData` of `Register`. -/
structure RegisterForm where
  fullName : String
  email : String
  password : String
  confirmPassword : String
  deriving DecidableEq

/-- The state of `Register`. -/
structure RegisterView where
  formData : RegisterForm
  showPassword : Bool
  showConfirmPassword : Bool
  loading : Bool
  deriving DecidableEq

/-- The function `handleSubmit` of `Register.js`, the request of `register`
settling to `response`. The state is that of the component and that of the
session. A failure of `register` always carries an error text. -/
def registerSubmit (response : PostOutcome Unit) (view : RegisterView) (auth : AuthState) :
    Submitted (RegisterView × AuthState) :=
  if view.formData.password ≠ view.formData.confirmPassword then
    { state := (view, auth), toasts := [Toast.error "Passwords do not match"], requests := [],
      navigation := none }
  else if utf16Length view.formData.password < 6 then
    { state := (view, auth), toasts := [Toast.error "Password must be at least 6 characters"],
      requests := [], navigation := none }
  else
    let called :=
      register response view.formData.email view.formData.password view.formData.fullName auth
    if called.2.1.success then
      { state := ({ view with loading := false }, called.1)
        toasts := [Toast.success "Registration successful! Please login."]
        requests := called.2.2
        navigation := some ("/login", 0) }
    else
      { state := ({ view with loading := false }, called.1)
        toasts := [Toast.error (called.2.1.error.getD "")]
        requests := called.2.2
        navigation := none }

/-- The `formData` of `ResetPassword`. -/
structure ResetForm where
  email : String
  reset_key : String
  new_password : String
  confirm_password : String
  deriving DecidableEq

/-- The state of `ResetPassword`. -/
structure ResetView where
  formData : ResetForm
  showPassword : Bool
  showConfirmPassword : Bool
  loading : Bool
  deriving DecidableEq

/-- The request of `ResetPassword`: a JSON body posted to
`/password-reset/verify`. The method `toUpperCase` is taken on the letters `a`
to `z`. -/
def resetRequest (form : ResetForm) : Request :=
  { method := "POST"
    url := "/password-reset/verify"
    body := RequestBody.json
      [("email", form.email), ("reset_key", form.reset_key.toUpper),
        ("new_password", form.new_password)]
    headers := [] }

/-- The function `handleSubmit` of `ResetPassword.js`, the request settling to
`response`. -/
def resetSubmit (response : PostOutcome Unit) (view : ResetView) : Submitted ResetView :=
  if view.formData.new_password ≠ view.formData.confirm_password then
    { state := view, toasts := [Toast.error "Passwords do not match"], requests := [],
      navigation := none }
  else if utf16Length view.formData.new_password < 8 then
    { state := view, toasts := [Toast.error "Password must be at least 8 characters long"],
      requests := [], navigation := none }
  else
    match response with
    | PostOutcome.resolved _ =>
      { state := { view with loading := false }
        toasts := [Toast.success "Password reset successfully!"]
        requests := [resetRequest view.formData]
        navigation := some ("/login", 1500) }
    | PostOutcome.rejected error =>
      { state := { view with loading := false }
        toasts := [Toast.error (orText error.detail "Failed to reset password")]
        requests := [resetRequest view.formData]
        navigation := none }

/-- The `passwordData` of `Profile`. -/
structure PasswordData where
  current_password : String
  new_password : String
  confirm_password : String
  deriving DecidableEq

/-- The `formData` of `Profile`. -/
structure ProfileForm where
  full_name : String
  email : String
  deriving DecidableEq

/-- A file chosen in the image input: its name, its size in bytes, and what
`FileReader.readAsDataURL` ends with (`none` when `reader.result` is `null`). -/
structure ImageFile where
  name : String
  size : Nat
  dataUrl : Option String
  deriving DecidableEq

/-- The state of `Profile`. -/
structure ProfileView where
  isEditing : Bool
  showPasswordModal : Bool
  profileImage : Option ImageFile
  imagePreview : Option String
  formData : ProfileForm
  passwordData : PasswordData
  deriving DecidableEq

/-- The request of the password change: a JSON body put to
`/users/change-password`. -/
def changePasswordRequest (data : PasswordData) : Request :=
  { method := "PUT"
    url := "/users/change-password"
    body := RequestBody.json
      [("current_password", data.current_password), ("new_password", data.new_password)]
    headers := [] }

/-- The function `handlePasswordUpdate` of `Profile.js`, the request settling
to `response`. -/
def handlePasswordUpdate (response : PostOutcome Unit) (view : ProfileView) :
    Submitted ProfileView :=
  if view.passwordData.new_password ≠ view.passwordData.confirm_password then
    { state := view, toasts := [Toast.error "New passwords do not match"], requests := [],
      navigation := none }
  else if utf16Length view.passwordData.new_password < 8 then
    { state := view, toasts := [Toast.error "Password must be at least 8 characters long"],
      requests := [], navigation := none }
  else
    match response with
    | PostOutcome.resolved _ =>
      { state :=
          { view with
            showPasswordModal := false
            passwordData := { current_password := "", new_password := "", confirm_password := "" } }
        toasts := [Toast.success "Password changed successfully!"]
        requests := [changePasswordRequest view.passwordData]
        navigation := none }
    | PostOutcome.rejected error =>
      { state := view
        toasts := [Toast.error (orText error.detail "Failed to change password")]
        requests := [changePasswordRequest view.passwordData]
        navigation := none }

/-- The function `handleImageChange` of `Profile.js` on the first chosen file
(`none` when no file was chosen), taken up to the end of the reading it starts:
the state it leaves and the messages shown. -/
def handleImageChange (file : Option ImageFile) (view : ProfileView) : ProfileView × List Toast :=
  match file with
  | none => (view, [])
  | some f =>
    if f.size > 5 * 1024 * 1024 then (view, [Toast.error "Image size should be less than 5MB"])
    else ({ view with profileImage := some f, imagePreview := f.dataUrl }, [])

/-- A file of exactly 5 MB. -/
def fiveMegabyteFile : ImageFile :=
  { name := "photo.png", size := 5242880, dataUrl := some "data:image/png;base64,AAAA" }

/-- The state of `Profile` when it is first shown to a user without an image. -/
def freshProfile : ProfileView :=
  { isEditing := false, showPasswordModal := false, profileImage := none, imagePreview := none,
    formData := { full_name := "", email := "" },
    passwordData := { current_password := "", new_password := "", confirm_password := "" } }

/-! ## The dashboard (`Dashboard.js`) -/

/-- A JavaScript value in the place of the summary, by what the validation of
`fetchDashboardData` looks at: a falsy value (`null`, `undefined`, `0`, `NaN`,
the empty text, `false`), another value that is not an object, an array, or an
object that is not an array, with the test `Array.isArray(data.detail)` and the
fields the view reads. An array has no `detail`. -/
inductive SummaryData
  | falsy
  | primitive
  | array
  | object (detailIsArray : Bool) (fields : Summary)
  deriving DecidableEq

/-- A JavaScript value in the place of the expense list: an array or not. -/
inductive ExpensesData
  | array (items : List Expense)
  | other
  deriving DecidableEq

/-- The state of `Dashboard`. -/
structure DashboardState where
  summary : SummaryData
  recentExpenses : ExpensesData
  loading : Bool
  deriving DecidableEq

/-- The state `Dashboard` starts with: `null`, `[]` and loading. -/
def dashboardStart : DashboardState :=
  { summary := SummaryData.falsy, recentExpenses := ExpensesData.array [], loading := true }

/-- The object `{ total_expenses: 0, total_count: 0, category_breakdown: {} }`. -/
def defaultSummary : SummaryData :=
  SummaryData.object false
    { total_expenses := some 0, total_count := some 0, category_breakdown := some [],
      budget_warning := none }

/-- The test `data && typeof data === 'object' && !Array.isArray(data.detail)`. -/
def validSummary (data : SummaryData) : Bool :=
  match data with
  | SummaryData.falsy => false
  | SummaryData.primitive => false
  | SummaryData.array => true
  | SummaryData.object detailIsArray _ => !detailIsArray

/-- The function `fetchDashboardData`, the two requests settling to
`summaryRes` and `expensesRes`: `Promise.all` rejects as soon as one of them
does. -/
def fetchDashboardData (summaryRes : PostOutcome SummaryData)
    (expensesRes : PostOutcome ExpensesData) (s : DashboardState) : DashboardState :=
  match summaryRes, expensesRes with
  | PostOutcome.resolved summaryData, PostOutcome.resolved expensesData =>
    { summary := if validSummary summaryData then summaryData else defaultSummary
      recentExpenses :=
        match expensesData with
        | ExpensesData.array items => ExpensesData.array items
        | ExpensesData.other => ExpensesData.array []
      loading := false }
  | _, _ =>
    { s with
      summary := defaultSummary
      recentExpenses := ExpensesData.array []
      loading := false }

/-- The test `typeof value === 'object' && value !== null`. -/
def isNonNullObject (value : SummaryData) : Bool :=
  match value with
  | SummaryData.array => true
  | SummaryData.object _ _ => true
  | _ => false

/-- The test `Array.isArray(value)`. -/
def isArray (value : ExpensesData) : Bool :=
  match value with
  | ExpensesData.array _ => true
  | ExpensesData.other => false

/-! ## The calendar of ECMA-262 -/

theorem DaysInYear_cases (y : Int) : DaysInYear y = 365 ∨ DaysInYear y = 366 := by
  unfold DaysInYear
  split_ifs <;> simp

theorem DaysInYear_eq_leap (y : Int) :
    DaysInYear y = if isLeapYear y then 366 else 365 := by
  unfold DaysInYear isLeapYear
  by_cases h4 : y % 4 = 0 <;> by_cases h100 : y % 100 = 0 <;> by_cases h400 : y % 400 = 0 <;>
    simp [h4, h100, h400]

theorem DayFromYear_succ (y : Int) : DayFromYear (y + 1) = DayFromYear y + DaysInYear y := by
  unfold DayFromYear DaysInYear
  split_ifs <;> omega

theorem DayFromYear_bounds (y : Int) :
    146097 * (y - 1970) - 506 ≤ 400 * DayFromYear y ∧
      400 * DayFromYear y ≤ 146097 * (y - 1970) + 589 := by
  unfold DayFromYear
  constructor <;> omega

theorem DayFromYear_lt_succ (y : Int) : DayFromYear y < DayFromYear (y + 1) := by
  have h := DayFromYear_succ y
  rcases DaysInYear_cases y with h1 | h1 <;> omega

theorem DayFromYear_mono {y z : Int} (h : y ≤ z) : DayFromYear y ≤ DayFromYear z := by
  have hm : Monotone DayFromYear := monotone_int_of_le_succ (fun n => (DayFromYear_lt_succ n).le)
  exact hm h

theorem YearFromDay_spec (d : Int) :
    DayFromYear (YearFromDay d) ≤ d ∧ d < DayFromYear (YearFromDay d + 1) := by
  unfold YearFromDay
  have b1 := DayFromYear_bounds (1970 + 400 * d / 146097 - 1)
  have b2 := DayFromYear_bounds (1970 + 400 * d / 146097 + 1 + 1)
  simp only
  split_ifs with h1 h2
  · refine ⟨by omega, ?_⟩
    rw [sub_add_cancel]; exact h1
  · exact ⟨h2, by omega⟩
  · exact ⟨by omega, by omega⟩

theorem YearFromDay_unique {d y : Int} (h1 : DayFromYear y ≤ d) (h2 : d < DayFromYear (y + 1)) :
    YearFromDay d = y := by
  obtain ⟨s1, s2⟩ := YearFromDay_spec d
  by_contra hne
  rcases lt_or_gt_of_ne hne with hlt | hgt
  · have := DayFromYear_mono (show YearFromDay d + 1 ≤ y by omega)
    omega
  · have := DayFromYear_mono (show y + 1 ≤ YearFromDay d by omega)
    omega

theorem TimeWithinDay_bounds (t : Int) : 0 ≤ TimeWithinDay t ∧ TimeWithinDay t < msPerDay := by
  unfold TimeWithinDay msPerDay
  omega

theorem Day_MakeDate {d tod : Int} (h0 : 0 ≤ tod) (h1 : tod < msPerDay) :
    Day (MakeDate d tod) = d := by
  unfold Day MakeDate msPerDay at *
  omega

theorem YearFromTime_of_day {t y : Int} (h1 : DayFromYear y ≤ Day t)
    (h2 : Day t < DayFromYear y + DaysInYear y) : YearFromTime t = y := by
  unfold YearFromTime
  apply YearFromDay_unique h1
  rw [DayFromYear_succ]; exact h2

theorem DayWithinYear_bounds (t : Int) :
    0 ≤ DayWithinYear t ∧ DayWithinYear t < DaysInYear (YearFromTime t) := by
  have h := YearFromDay_spec (Day t)
  rw [DayFromYear_succ] at h
  unfold DayWithinYear YearFromTime
  omega

/-- The zero-based index of the first day of the month after `mn`. -/
theorem monthStart_next {leap mn : Int} (hl : leap = 0 ∨ leap = 1) (h0 : 0 ≤ mn) (h1 : mn ≤ 11)
    (y : Int) (hy : DaysInYear y = 365 + leap) :
    (if mn = 11 then 365 + leap else monthStart leap (mn + 1)) =
      monthStart leap mn + daysInMonth (mn + 1) y := by
  have hleap := DaysInYear_eq_leap y
  unfold daysInMonth
  interval_cases mn <;> rcases hl with hl | hl <;> subst hl <;>
    cases hb : isLeapYear y <;> simp [hb, monthStart] at * <;> omega

theorem leap_table (y : Int) :
    (DaysInYear y = 365 ∧ isLeapYear y = false) ∨ (DaysInYear y = 366 ∧ isLeapYear y = true) := by
  have h := DaysInYear_eq_leap y
  cases hb : isLeapYear y <;> simp [hb] at h <;> simp [h]

theorem InLeapYear_table (t : Int) :
    (InLeapYear t = 0 ∧ DaysInYear (YearFromTime t) = 365) ∨
      (InLeapYear t = 1 ∧ DaysInYear (YearFromTime t) = 366) := by
  unfold InLeapYear
  rcases DaysInYear_cases (YearFromTime t) with h | h <;> simp [h]

theorem month_table (leap y mn : Int) (hl : DaysInYear y = 365 + leap) (h0 : 0 ≤ mn)
    (h1 : mn ≤ 11) :
    (mn = 0 ∧ monthStart leap mn = 0 ∧ daysInMonth (mn + 1) y = 31) ∨
    (mn = 1 ∧ monthStart leap mn = 31 ∧ daysInMonth (mn + 1) y = 28 + leap) ∨
    (mn = 2 ∧ monthStart leap mn = 59 + leap ∧ daysInMonth (mn + 1) y = 31) ∨
    (mn = 3 ∧ monthStart leap mn = 90 + leap ∧ daysInMonth (mn + 1) y = 30) ∨
    (mn = 4 ∧ monthStart leap mn = 120 + leap ∧ daysInMonth (mn + 1) y = 31) ∨
    (mn = 5 ∧ monthStart leap mn = 151 + leap ∧ daysInMonth (mn + 1) y = 30) ∨
    (mn = 6 ∧ monthStart leap mn = 181 + leap ∧ daysInMonth (mn + 1) y = 31) ∨
    (mn = 7 ∧ monthStart leap mn = 212 + leap ∧ daysInMonth (mn + 1) y = 31) ∨
    (mn = 8 ∧ monthStart leap mn = 243 + leap ∧ daysInMonth (mn + 1) y = 30) ∨
    (mn = 9 ∧ monthStart leap mn = 273 + leap ∧ daysInMonth (mn + 1) y = 31) ∨
    (mn = 10 ∧ monthStart leap mn = 304 + leap ∧ daysInMonth (mn + 1) y = 30) ∨
    (mn = 11 ∧ monthStart leap mn = 334 + leap ∧ daysInMonth (mn + 1) y = 31) := by
  have hfeb : daysInMonth 2 y = 28 + leap := by
    rcases leap_table y with ⟨h, hb⟩ | ⟨h, hb⟩ <;> simp [daysInMonth, hb] <;> omega
  interval_cases mn
  · simp [monthStart, daysInMonth]
  · simp [monthStart, hfeb]
  · simp [monthStart, daysInMonth]
  · simp [monthStart, daysInMonth]
  · simp [monthStart, daysInMonth]
  · simp [monthStart, daysInMonth]
  · simp [monthStart, daysInMonth]
  · simp [monthStart, daysInMonth]
  · simp [monthStart, daysInMonth]
  · simp [monthStart, daysInMonth]
  · simp [monthStart, daysInMonth]
  · simp [monthStart, daysInMonth]

theorem MonthFromTime_table (t : Int) :
    (MonthFromTime t = 0 ∧ DayWithinYear t < 31) ∨
    (MonthFromTime t = 1 ∧ 31 ≤ DayWithinYear t ∧ DayWithinYear t < 59 + InLeapYear t) ∨
    (MonthFromTime t = 2 ∧ 59 + InLeapYear t ≤ DayWithinYear t ∧
      DayWithinYear t < 90 + InLeapYear t) ∨
    (MonthFromTime t = 3 ∧ 90 + InLeapYear t ≤ DayWithinYear t ∧
      DayWithinYear t < 120 + InLeapYear t) ∨
    (MonthFromTime t = 4 ∧ 120 + InLeapYear t ≤ DayWithinYear t ∧
      DayWithinYear t < 151 + InLeapYear t) ∨
    (MonthFromTime t = 5 ∧ 151 + InLeapYear t ≤ DayWithinYear t ∧
      DayWithinYear t < 181 + InLeapYear t) ∨
    (MonthFromTime t = 6 ∧ 181 + InLeapYear t ≤ DayWithinYear t ∧
      DayWithinYear t < 212 + InLeapYear t) ∨
    (MonthFromTime t = 7 ∧ 212 + InLeapYear t ≤ DayWithinYear t ∧
      DayWithinYear t < 243 + InLeapYear t) ∨
    (MonthFromTime t = 8 ∧ 243 + InLeapYear t ≤ DayWithinYear t ∧
      DayWithinYear t < 273 + InLeapYear t) ∨
    (MonthFromTime t = 9 ∧ 273 + InLeapYear t ≤ DayWithinYear t ∧
      DayWithinYear t < 304 + InLeapYear t) ∨
    (MonthFromTime t = 10 ∧ 304 + InLeapYear t ≤ DayWithinYear t ∧
      DayWithinYear t < 334 + InLeapYear t) ∨
    (MonthFromTime t = 11 ∧ 334 + InLeapYear t ≤ DayWithinYear t) := by
  have key : ∀ m : Int, m = MonthFromTime t →
      (m = 0 ∧ DayWithinYear t < 31) ∨
      (m = 1 ∧ 31 ≤ DayWithinYear t ∧ DayWithinYear t < 59 + InLeapYear t) ∨
      (m = 2 ∧ 59 + InLeapYear t ≤ DayWithinYear t ∧ DayWithinYear t < 90 + InLeapYear t) ∨
      (m = 3 ∧ 90 + InLeapYear t ≤ DayWithinYear t ∧ DayWithinYear t < 120 + InLeapYear t) ∨
      (m = 4 ∧ 120 + InLeapYear t ≤ DayWithinYear t ∧ DayWithinYear t < 151 + InLeapYear t) ∨
      (m = 5 ∧ 151 + InLeapYear t ≤ DayWithinYear t ∧ DayWithinYear t < 181 + InLeapYear t) ∨
      (m = 6 ∧ 181 + InLeapYear t ≤ DayWithinYear t ∧ DayWithinYear t < 212 + InLeapYear t) ∨
      (m = 7 ∧ 212 + InLeapYear t ≤ DayWithinYear t ∧ DayWithinYear t < 243 + InLeapYear t) ∨
      (m = 8 ∧ 243 + InLeapYear t ≤ DayWithinYear t ∧ DayWithinYear t < 273 + InLeapYear t) ∨
      (m = 9 ∧ 273 + InLeapYear t ≤ DayWithinYear t ∧ DayWithinYear t < 304 + InLeapYear t) ∨
      (m = 10 ∧ 304 + InLeapYear t ≤ DayWithinYear t ∧ DayWithinYear t < 334 + InLeapYear t) ∨
      (m = 11 ∧ 334 + InLeapYear t ≤ DayWithinYear t) := by
    intro m hm
    unfold MonthFromTime at hm
    dsimp only at hm
    generalize DayWithinYear t = d at hm ⊢
    generalize InLeapYear t = leap at hm ⊢
    by_cases h1 : d < 31
    · rw [if_pos h1] at hm; exact Or.inl ⟨hm, h1⟩
    rw [if_neg h1] at hm
    by_cases h2 : d < 59 + leap
    · rw [if_pos h2] at hm; exact Or.inr (Or.inl ⟨hm, by omega, h2⟩)
    rw [if_neg h2] at hm
    by_cases h3 : d < 90 + leap
    · rw [if_pos h3] at hm; exact Or.inr (Or.inr (Or.inl ⟨hm, by omega, h3⟩))
    rw [if_neg h3] at hm
    by_cases h4 : d < 120 + leap
    · rw [if_pos h4] at hm; exact Or.inr (Or.inr (Or.inr (Or.inl ⟨hm, by omega, h4⟩)))
    rw [if_neg h4] at hm
    by_cases h5 : d < 151 + leap
    · rw [if_pos h5] at hm; exact Or.inr (Or.inr (Or.inr (Or.inr (Or.inl ⟨hm, by omega, h5⟩))))
    rw [if_neg h5] at hm
    by_cases h6 : d < 181 + leap
    · rw [if_pos h6] at hm; exact Or.inr (Or.inr (Or.inr (Or.inr (Or.inr (Or.inl ⟨hm, by omega, h6⟩)))))
    rw [if_neg h6] at hm
    by_cases h7 : d < 212 + leap
    · rw [if_pos h7] at hm; exact Or.inr (Or.inr (Or.inr (Or.inr (Or.inr (Or.inr (Or.inl ⟨hm, by omega, h7⟩))))))
    rw [if_neg h7] at hm
    by_cases h8 : d < 243 + leap
    · rw [if_pos h8] at hm; exact Or.inr (Or.inr (Or.inr (Or.inr (Or.inr (Or.inr (Or.inr (Or.inl ⟨hm, by omega, h8⟩)))))))
    rw [if_neg h8] at hm
    by_cases h9 : d < 273 + leap
    · rw [if_pos h9] at hm; exact Or.inr (Or.inr (Or.inr (Or.inr (Or.inr (Or.inr (Or.inr (Or.inr (Or.inl ⟨hm, by omega, h9⟩))))))))
    rw [if_neg h9] at hm
    by_cases h10 : d < 304 + leap
    · rw [if_pos h10] at hm; exact Or.inr (Or.inr (Or.inr (Or.inr (Or.inr (Or.inr (Or.inr (Or.inr (Or.inr (Or.inl ⟨hm, by omega, h10⟩)))))))))
    rw [if_neg h10] at hm
    by_cases h11 : d < 334 + leap
    · rw [if_pos h11] at hm; exact Or.inr (Or.inr (Or.inr (Or.inr (Or.inr (Or.inr (Or.inr (Or.inr (Or.inr (Or.inr (Or.inl ⟨hm, by omega, h11⟩))))))))))
    rw [if_neg h11] at hm
    exact Or.inr (Or.inr (Or.inr (Or.inr (Or.inr (Or.inr (Or.inr (Or.inr (Or.inr (Or.inr (Or.inr ⟨hm, by omega⟩))))))))))
  exact key _ rfl

theorem fields_of_MakeDay {t y mn dt : Int} (hm0 : 0 ≤ mn) (hm1 : mn ≤ 11) (hd0 : 1 ≤ dt)
    (hd1 : dt ≤ daysInMonth (mn + 1) y) (ht : Day t = MakeDay y mn dt) :
    YearFromTime t = y ∧ MonthFromTime t = mn ∧ DateFromTime t = dt := by
  have hdiv : mn / 12 = 0 := by omega
  have hmod : mn % 12 = mn := by omega
  simp only [MakeDay, hdiv, hmod, add_zero] at ht
  obtain ⟨leap, hleap, hl⟩ : ∃ leap : Int,
      (if DaysInYear y = 365 then (0 : Int) else 1) = leap ∧ DaysInYear y = 365 + leap := by
    rcases DaysInYear_cases y with h | h <;> simp [h]
  rw [hleap] at ht
  have hyear : YearFromTime t = y := by
    apply YearFromTime_of_day <;> rcases month_table leap y mn hl hm0 hm1 with
      h | h | h | h | h | h | h | h | h | h | h | h <;> omega
  have hdwy : DayWithinYear t = monthStart leap mn + dt - 1 := by
    unfold DayWithinYear
    rw [hyear, ht]; omega
  have hin : InLeapYear t = leap := by
    unfold InLeapYear
    rw [hyear]; exact hleap
  have hmonth : MonthFromTime t = mn := by
    have hT := MonthFromTime_table t
    rw [hdwy, hin] at hT
    rcases month_table leap y mn hl hm0 hm1 with
      h | h | h | h | h | h | h | h | h | h | h | h <;> omega
  refine ⟨hyear, hmonth, ?_⟩
  unfold DateFromTime
  rw [hmonth, hdwy, hin]
  omega

theorem fields_of_time (t : Int) :
    0 ≤ MonthFromTime t ∧ MonthFromTime t ≤ 11 ∧ 1 ≤ DateFromTime t ∧
      DateFromTime t ≤ daysInMonth (MonthFromTime t + 1) (YearFromTime t) ∧
      MakeDay (YearFromTime t) (MonthFromTime t) (DateFromTime t) = Day t := by
  have hb := DayWithinYear_bounds t
  have hT := MonthFromTime_table t
  have hm0 : 0 ≤ MonthFromTime t := by omega
  have hm1 : MonthFromTime t ≤ 11 := by omega
  have hdiv : MonthFromTime t / 12 = 0 := by omega
  have hmod : MonthFromTime t % 12 = MonthFromTime t := by omega
  have hl : DaysInYear (YearFromTime t) = 365 + InLeapYear t := by
    rcases InLeapYear_table t with h | h <;> omega
  have hleap : (if DaysInYear (YearFromTime t) = 365 then (0 : Int) else 1) = InLeapYear t := rfl
  have hday : MakeDay (YearFromTime t) (MonthFromTime t) (DateFromTime t) = Day t := by
    simp only [MakeDay, hdiv, hmod, add_zero, hleap]
    unfold DateFromTime DayWithinYear
    omega
  refine ⟨hm0, hm1, ?_, ?_, hday⟩ <;> unfold DateFromTime <;>
    rcases month_table (InLeapYear t) (YearFromTime t) (MonthFromTime t) hl hm0 hm1 with
      h | h | h | h | h | h | h | h | h | h | h | h <;> omega

/-! ## The days `eachDayOfInterval` enumerates -/

theorem MakeTime_midnight : MakeTime 0 0 0 0 = 0 := by decide

theorem MakeTime_last : MakeTime 23 59 59 999 = 86399999 := by decide

theorem MakeDay_add (year month date k : Int) :
    MakeDay year month (date + k) = MakeDay year month date + k := by
  simp only [MakeDay]
  omega

theorem Day_midnight (c : Int) : Day (MakeDate c 0) = c :=
  Day_MakeDate (le_refl 0) (by decide)

theorem midnight_le_iff (c endTime : Int) : MakeDate c 0 ≤ endTime ↔ c ≤ Day endTime := by
  unfold MakeDate Day msPerDay
  omega

theorem setHours_midnight (t : Int) : setHours t 0 0 0 0 = MakeDate (Day t) 0 := by
  unfold setHours
  rw [MakeTime_midnight]

theorem nextDay_eq (t : Int) :
    setHours (setDate t (getDate t + 1)) 0 0 0 0 = MakeDate (Day t + 1) 0 := by
  obtain ⟨_, _, _, _, hday⟩ := fields_of_time t
  obtain ⟨h0, h1⟩ := TimeWithinDay_bounds t
  rw [setHours_midnight]
  unfold setDate getDate
  rw [MakeDay_add, hday, Day_MakeDate h0 h1]

theorem eachDayLoop_eq (endTime : Int) :
    ∀ (fuel : Nat) (c : Int) (dates : List Int), (Day endTime - c + 1).toNat ≤ fuel →
      eachDayLoop endTime fuel (MakeDate c 0) dates =
        some (dates ++ midnightsFrom c (Day endTime - c + 1).toNat) := by
  intro fuel
  induction fuel with
  | zero =>
    intro c dates h
    have hc : ¬ (c ≤ Day endTime) := by omega
    have hn : (Day endTime - c + 1).toNat = 0 := by omega
    simp [eachDayLoop, midnight_le_iff, hc, hn, midnightsFrom]
  | succ fuel ih =>
    intro c dates h
    by_cases hc : c ≤ Day endTime
    · have hn : (Day endTime - c + 1).toNat = (Day endTime - (c + 1) + 1).toNat + 1 := by omega
      have hstep := ih (c + 1) (dates ++ [MakeDate c 0]) (by omega)
      rw [eachDayLoop, if_pos ((midnight_le_iff c endTime).mpr hc), nextDay_eq, Day_midnight,
        hstep, hn]
      simp [midnightsFrom]
    · have hn : (Day endTime - c + 1).toNat = 0 := by omega
      rw [eachDayLoop, if_neg (fun h => hc ((midnight_le_iff c endTime).mp h)), hn]
      simp [midnightsFrom]

theorem eachDayOfInterval_eq {start end_ : Int} (h : start ≤ end_) :
    eachDayOfInterval start end_ =
      Except.ok (midnightsFrom (Day start) (Day end_ - Day start + 1).toNat) := by
  unfold eachDayOfInterval
  rw [if_neg (not_not.mpr h), setHours_midnight, eachDayLoop_eq end_ _ _ _ (le_refl _)]
  simp

/-- The loop of `eachDayOfInterval` never reaches its iteration bound: on every
interval that does not end before it starts the function returns. -/
theorem eachDayLoop_enough {start end_ : Int} (h : start ≤ end_) :
    ∃ dates, eachDayOfInterval start end_ = Except.ok dates :=
  ⟨_, eachDayOfInterval_eq h⟩

theorem mem_midnightsFrom {day : Int} : ∀ (n : Nat) (c : Int),
    day ∈ midnightsFrom c n ↔ ∃ i : Nat, i < n ∧ day = MakeDate (c + i) 0 := by
  intro n
  induction n with
  | zero => intro c; simp [midnightsFrom]
  | succ n ih =>
    intro c
    simp only [midnightsFrom, List.mem_cons, ih]
    constructor
    · rintro (h | ⟨i, hi, h⟩)
      · exact ⟨0, by omega, by simpa using h⟩
      · exact ⟨i + 1, by omega, by rw [h]; congr 1; push_cast; ring⟩
    · rintro ⟨i, hi, h⟩
      cases i with
      | zero => left; simpa using h
      | succ i => right; exact ⟨i, by omega, by rw [h]; congr 1; push_cast; ring⟩

theorem midnightsFrom_eq_map (n : Nat) : ∀ c : Int,
    midnightsFrom c n = (List.range n).map (fun i : Nat => MakeDate (c + i) 0) := by
  induction n with
  | zero => intro c; simp [midnightsFrom]
  | succ n ih =>
    intro c
    rw [midnightsFrom, ih, List.range_succ_eq_map]
    simp only [List.map_cons, List.map_map, Nat.cast_zero, add_zero, List.cons.injEq, true_and]
    apply List.map_congr_left
    intro i _
    simp only [Function.comp, Nat.cast_succ]
    congr 1; ring

theorem daysInMonth_bounds (m y : Int) : 28 ≤ daysInMonth m y ∧ daysInMonth m y ≤ 31 := by
  unfold daysInMonth
  split_ifs <;> omega

theorem fields_MakeDate {Y mn dt tod : Int} (hm0 : 0 ≤ mn) (hm1 : mn ≤ 11) (hd0 : 1 ≤ dt)
    (hd1 : dt ≤ daysInMonth (mn + 1) Y) (h0 : 0 ≤ tod) (h1 : tod < msPerDay) :
    YearFromTime (MakeDate (MakeDay Y mn dt) tod) = Y ∧
      MonthFromTime (MakeDate (MakeDay Y mn dt) tod) = mn ∧
      DateFromTime (MakeDate (MakeDay Y mn dt) tod) = dt :=
  fields_of_MakeDay hm0 hm1 hd0 hd1 (Day_MakeDate h0 h1)

theorem MakeDay_zero_next {m : Int} (Y : Int) (h1 : 1 ≤ m) (h2 : m ≤ 12) :
    MakeDay Y m 0 = MakeDay Y (m - 1) (daysInMonth m Y) := by
  obtain ⟨leap, hleap, hl⟩ : ∃ leap : Int,
      (if DaysInYear Y = 365 then (0 : Int) else 1) = leap ∧ DaysInYear Y = 365 + leap := by
    rcases DaysInYear_cases Y with h | h <;> simp [h]
  have hl01 : leap = 0 ∨ leap = 1 := by
    rcases DaysInYear_cases Y with h | h <;> omega
  have hnext := monthStart_next hl01 (show 0 ≤ m - 1 by omega) (show m - 1 ≤ 11 by omega) Y hl
  rw [sub_add_cancel] at hnext
  have hd1 : (m - 1) / 12 = 0 := by omega
  have hm1 : (m - 1) % 12 = m - 1 := by omega
  by_cases h12 : m = 12
  · subst h12
    have hs := DayFromYear_succ Y
    simp only [MakeDay, hleap] at *
    norm_num at *
    simp only [monthStart] at *
    norm_num at *
    omega
  · have hd : m / 12 = 0 := by omega
    have hm : m % 12 = m := by omega
    have h11 : ¬ (m - 1 = 11) := by omega
    rw [if_neg h11] at hnext
    simp only [MakeDay, hd, hm, hd1, hm1, add_zero, hleap]
    omega

theorem newDate_first {m : Int} (y : Int) :
    newDate y (m - 1) 1 = MakeDate (MakeDay (fullYearOfArgument y) (m - 1) 1) 0 := by
  unfold newDate
  rw [MakeTime_midnight]

theorem startOfMonth_first {m : Int} (Y : Int) (h1 : 1 ≤ m) (h2 : m ≤ 12) :
    startOfMonth (MakeDate (MakeDay Y (m - 1) 1) 0) = MakeDate (MakeDay Y (m - 1) 1) 0 := by
  have hb := daysInMonth_bounds (m - 1 + 1) Y
  obtain ⟨hy, hm, _⟩ := @fields_MakeDate Y (m - 1) 1 0
    (by omega) (by omega) (by omega) (by omega) (le_refl 0) (by decide)
  unfold startOfMonth
  rw [setHours_midnight]
  unfold setDate
  rw [hy, hm, Day_MakeDate (TimeWithinDay_bounds _).1 (TimeWithinDay_bounds _).2]

theorem endOfMonth_first {m : Int} (Y : Int) (h1 : 1 ≤ m) (h2 : m ≤ 12) :
    endOfMonth (MakeDate (MakeDay Y (m - 1) 1) 0) =
      MakeDate (MakeDay Y (m - 1) (daysInMonth m Y)) 86399999 := by
  have hb := daysInMonth_bounds (m - 1 + 1) Y
  obtain ⟨hy, hm, _⟩ := @fields_MakeDate Y (m - 1) 1 0
    (by omega) (by omega) (by omega) (by omega) (le_refl 0) (by decide)
  unfold endOfMonth setHours setFullYear getMonth getFullYear
  simp only
  rw [hy, hm, sub_add_cancel, MakeTime_last,
    Day_MakeDate (TimeWithinDay_bounds _).1 (TimeWithinDay_bounds _).2, MakeDay_zero_next Y h1 h2]

theorem monthDays_eq {m : Int} (Y : Int) (h1 : 1 ≤ m) (h2 : m ≤ 12) :
    eachDayOfInterval (startOfMonth (MakeDate (MakeDay Y (m - 1) 1) 0))
        (endOfMonth (MakeDate (MakeDay Y (m - 1) 1) 0)) =
      Except.ok (midnightsFrom (MakeDay Y (m - 1) 1) (daysInMonth m Y).toNat) := by
  have hb := daysInMonth_bounds m Y
  rw [startOfMonth_first Y h1 h2, endOfMonth_first Y h1 h2]
  have hadd := MakeDay_add Y (m - 1) 1 (daysInMonth m Y - 1)
  rw [show (1 : Int) + (daysInMonth m Y - 1) = daysInMonth m Y by ring] at hadd
  have hend : Day (MakeDate (MakeDay Y (m - 1) (daysInMonth m Y)) 86399999) =
      MakeDay Y (m - 1) (daysInMonth m Y) := Day_MakeDate (by decide) (by decide)
  rw [eachDayOfInterval_eq, Day_midnight, hend, hadd]
  · congr 2; omega
  · rw [hadd]
    unfold MakeDate msPerDay
    omega

theorem generateDailyData_eq (expenses : List Expense) {m : Int} (y : Int) (h1 : 1 ≤ m)
    (h2 : m ≤ 12) :
    generateDailyData expenses m y =
      mapE (dailyEntry expenses)
        (midnightsFrom (MakeDay (fullYearOfArgument y) (m - 1) 1)
          (daysInMonth m (fullYearOfArgument y)).toNat) := by
  unfold generateDailyData
  simp only [newDate_first, monthDays_eq _ h1 h2]

/-! ## The bars of the daily chart -/

theorem foldl_amount (l : List Expense) : ∀ init : ℚ,
    l.foldl (fun sum expense => sum + expense.amount) init = init + sumAmounts l := by
  induction l with
  | nil => intro init; simp [sumAmounts]
  | cons x xs ih =>
    intro init
    simp only [List.foldl_cons, ih, sumAmounts, List.map_cons, List.sum_cons]
    ring

theorem mapE_ok {α β : Type} (f : α → Except String β) (g : α → β) :
    ∀ l : List α, (∀ x ∈ l, f x = Except.ok (g x)) → mapE f l = Except.ok (l.map g) := by
  intro l
  induction l with
  | nil => intro _; rfl
  | cons x xs ih =>
    intro h
    have hx := h x (List.mem_cons_self x xs)
    have hxs := ih (fun z hz => h z (List.mem_cons_of_mem x hz))
    simp [mapE, hx, hxs]

theorem mapE_congr {α β : Type} (f g : α → Except String β) :
    ∀ l : List α, (∀ x ∈ l, f x = g x) → mapE f l = mapE g l := by
  intro l
  induction l with
  | nil => intro _; rfl
  | cons x xs ih =>
    intro h
    have hx := h x (List.mem_cons_self x xs)
    have hxs := ih (fun z hz => h z (List.mem_cons_of_mem x hz))
    simp [mapE, hx, hxs]

theorem mapE_error_head {α β : Type} (f : α → Except String β) (x : α) (xs : List α)
    (msg : String) (h : f x = Except.error msg) : mapE f (x :: xs) = Except.error msg := by
  simp [mapE, h]

theorem sameDay_valid {day Y m k : Int}
    (hkey : format_yyyy_MM_dd (some day) = Except.ok (eraYear Y, m, k)) (e : Expense)
    (hv : hasValidDate e = true) : sameDay day e = Except.ok (keyMatches Y m k e) := by
  unfold sameDay keyMatches
  rw [hkey]
  cases hd : e.date with
  | none => simp [hasValidDate, hd] at hv
  | some t => simp [format_yyyy_MM_dd]

theorem sameDay_invalid (day : Int) (e : Expense) (hd : e.date = none) :
    sameDay day e = Except.error "RangeError: Invalid time value" := by
  simp [sameDay, hd, format_yyyy_MM_dd]

theorem sameDay_ok_or_error (day : Int) (e : Expense) :
    (∃ b, sameDay day e = Except.ok b) ∨
      sameDay day e = Except.error "RangeError: Invalid time value" := by
  cases hd : e.date with
  | none => right; exact sameDay_invalid day e hd
  | some t => left; simp [sameDay, hd, format_yyyy_MM_dd]

theorem filterE_sameDay_ok {day Y m k : Int}
    (hkey : format_yyyy_MM_dd (some day) = Except.ok (eraYear Y, m, k)) :
    ∀ expenses : List Expense, (∀ e ∈ expenses, hasValidDate e = true) →
      filterE (sameDay day) expenses = Except.ok (expenses.filter (keyMatches Y m k)) := by
  intro expenses
  induction expenses with
  | nil => intro _; rfl
  | cons x xs ih =>
    intro h
    have hx := sameDay_valid hkey x (h x (List.mem_cons_self x xs))
    have hxs := ih (fun z hz => h z (List.mem_cons_of_mem x hz))
    simp only [filterE, hx, hxs, List.filter_cons]

theorem filterE_sameDay_error (day : Int) :
    ∀ expenses : List Expense, (∃ e ∈ expenses, e.date = none) →
      filterE (sameDay day) expenses = Except.error "RangeError: Invalid time value" := by
  intro expenses
  induction expenses with
  | nil => rintro ⟨e, he, _⟩; simp at he
  | cons x xs ih =>
    rintro ⟨e, he, hd⟩
    rcases sameDay_ok_or_error day x with ⟨b, hb⟩ | herr
    · have hxs : filterE (sameDay day) xs = Except.error "RangeError: Invalid time value" := by
        apply ih
        rcases List.mem_cons.mp he with rfl | hmem
        · rw [sameDay_invalid day e hd] at hb; cases hb
        · exact ⟨e, hmem, hd⟩
      simp [filterE, hb, hxs]
    · simp [filterE, herr]

theorem filterE_drop {α : Type} (p : α → Except String Bool) (e : α)
    (he : p e = Except.ok false) (ys : List α) :
    ∀ xs : List α, filterE p (xs ++ e :: ys) = filterE p (xs ++ ys) := by
  intro xs
  induction xs with
  | nil => simp only [List.nil_append, filterE, he]; cases filterE p ys <;> simp
  | cons x xs ih =>
    have ih2 : filterE p (xs.append (e :: ys)) = filterE p (xs.append ys) := ih
    simp only [List.cons_append, filterE, ih2]

/-- The fields of the `i`-th day of the month of `generateDailyData`. -/
theorem monthDay_fields {m : Int} (Y : Int) (h1 : 1 ≤ m) (h2 : m ≤ 12) (i : Nat)
    (hi : i < (daysInMonth m Y).toNat) :
    getFullYear (MakeDate (MakeDay Y (m - 1) 1 + i) 0) = Y ∧
      getMonth (MakeDate (MakeDay Y (m - 1) 1 + i) 0) = m - 1 ∧
      getDate (MakeDate (MakeDay Y (m - 1) 1 + i) 0) = i + 1 := by
  have hb := daysInMonth_bounds m Y
  rw [← MakeDay_add, add_comm (1 : Int) (i : Int)]
  unfold getFullYear getMonth getDate
  apply fields_MakeDate (by omega) (by omega) (by omega) _ (le_refl 0) (by decide)
  rw [sub_add_cancel]
  omega

theorem dailyEntry_valid {m : Int} (Y : Int) (h1 : 1 ≤ m) (h2 : m ≤ 12) (i : Nat)
    (hi : i < (daysInMonth m Y).toNat) (expenses : List Expense)
    (hvalid : ∀ e ∈ expenses, hasValidDate e = true) :
    dailyEntry expenses (MakeDate (MakeDay Y (m - 1) 1 + i) 0) =
      Except.ok (computedEntry expenses Y m (i + 1)) := by
  obtain ⟨hy, hm, hd⟩ := monthDay_fields Y h1 h2 i hi
  have hkey : format_yyyy_MM_dd (some (MakeDate (MakeDay Y (m - 1) 1 + i) 0)) =
      Except.ok (eraYear Y, m, (i : Int) + 1) := by
    simp [format_yyyy_MM_dd, hy, hm, hd]
  unfold dailyEntry
  rw [filterE_sameDay_ok hkey expenses hvalid]
  simp [format_MMM_dd, hm, hd, computedEntry, foldl_amount]

theorem dailyEntry_invalid (expenses : List Expense) (day : Int)
    (h : ∃ e ∈ expenses, e.date = none) :
    dailyEntry expenses day = Except.error "RangeError: Invalid time value" := by
  unfold dailyEntry
  rw [filterE_sameDay_error day expenses h]

theorem generateDailyData_valid (expenses : List Expense) {m : Int} (y : Int) (h1 : 1 ≤ m)
    (h2 : m ≤ 12) (hvalid : ∀ e ∈ expenses, hasValidDate e = true) :
    generateDailyData expenses m y =
      Except.ok ((List.range (daysInMonth m (fullYearOfArgument y)).toNat).map
        (fun i : Nat => computedEntry expenses (fullYearOfArgument y) m (i + 1))) := by
  rw [generateDailyData_eq expenses y h1 h2, midnightsFrom_eq_map, ]
  rw [mapE_ok (dailyEntry expenses)
    (fun day => computedEntry expenses (fullYearOfArgument y) m (Day day -
      MakeDay (fullYearOfArgument y) (m - 1) 1 + 1))]
  · simp only [List.map_map]
    congr 1
    apply List.map_congr_left
    intro i _
    simp only [Function.comp, Day_midnight]
    congr 1; omega
  · intro day hday
    obtain ⟨i, hi, rfl⟩ := List.mem_map.mp hday
    rw [dailyEntry_valid _ h1 h2 i (List.mem_range.mp hi) expenses hvalid, Day_midnight]
    congr 2; omega

theorem generateDailyData_invalid (expenses : List Expense) {m : Int} (y : Int) (h1 : 1 ≤ m)
    (h2 : m ≤ 12) (h : ∃ e ∈ expenses, e.date = none) :
    generateDailyData expenses m y = Except.error "RangeError: Invalid time value" := by
  have hb := daysInMonth_bounds m (fullYearOfArgument y)
  rw [generateDailyData_eq expenses y h1 h2]
  obtain ⟨n, hn⟩ : ∃ n, (daysInMonth m (fullYearOfArgument y)).toNat = n + 1 :=
    ⟨(daysInMonth m (fullYearOfArgument y)).toNat - 1, by omega⟩
  rw [hn, midnightsFrom]
  exact mapE_error_head _ _ _ _ (dailyEntry_invalid expenses _ h)

theorem fullYearOfArgument_of_ge {y : Int} (hy : 100 ≤ y) : fullYearOfArgument y = y := by
  unfold fullYearOfArgument
  rw [if_neg (by omega)]

theorem daysInMonth_fullYear (m : Int) {y : Int} (hy : y ≠ 0) :
    daysInMonth m (fullYearOfArgument y) = daysInMonth m y := by
  unfold fullYearOfArgument
  by_cases h : 0 ≤ y ∧ y ≤ 99
  · rw [if_pos h]
    have hleap : isLeapYear (1900 + y) = isLeapYear y := by
      unfold isLeapYear
      apply decide_eq_decide.mpr
      omega
    unfold daysInMonth
    rw [hleap]
  · rw [if_neg h]

theorem keyMatches_eq_onDay {Y : Int} (m k : Int) (hY : 1 ≤ Y) (e : Expense)
    (he : hasCalendarDate e = true) : keyMatches Y m k e = onDay Y m k e := by
  unfold keyMatches onDay
  cases hd : e.date with
  | none => rfl
  | some t =>
    have ht : 1 ≤ YearFromTime t := by simpa [hasCalendarDate, hd] using he
    have h1 : eraYear (YearFromTime t) = YearFromTime t := by
      unfold eraYear; rw [if_pos (by omega)]
    have h2 : eraYear Y = Y := by
      unfold eraYear; rw [if_pos (by omega)]
    simp only [getFullYear, getMonth, getDate, h1, h2, Prod.mk.injEq]

theorem hasValidDate_of_calendar (e : Expense) (he : hasCalendarDate e = true) :
    hasValidDate e = true := by
  unfold hasCalendarDate at he
  unfold hasValidDate
  cases hd : e.date with
  | none => simp [hd] at he
  | some t => rfl

theorem computedEntry_eq_expected {Y : Int} (m k : Int) (hY : 1 ≤ Y) (expenses : List Expense)
    (hcal : ∀ e ∈ expenses, hasCalendarDate e = true) :
    computedEntry expenses Y m k = expectedEntry expenses Y m k := by
  have hf : expenses.filter (keyMatches Y m k) = expenses.filter (onDay Y m k) :=
    List.filter_congr (fun e he => keyMatches_eq_onDay m k hY e (hcal e he))
  unfold computedEntry expectedEntry
  rw [hf]

theorem generateDailyData_calendar (expenses : List Expense) {m y : Int} (h1 : 1 ≤ m)
    (h2 : m ≤ 12) (hy : 100 ≤ y) (hcal : ∀ e ∈ expenses, hasCalendarDate e = true) :
    generateDailyData expenses m y =
      Except.ok ((List.range (daysInMonth m y).toNat).map
        (fun i : Nat => expectedEntry expenses y m (i + 1))) := by
  rw [generateDailyData_valid expenses y h1 h2
    (fun e he => hasValidDate_of_calendar e (hcal e he)), fullYearOfArgument_of_ge hy]
  congr 1
  apply List.map_congr_left
  intro i _
  exact computedEntry_eq_expected m _ (by omega) expenses hcal

theorem sum_indicator (a : ℚ) (j : Nat) : ∀ n : Nat,
    ((List.range n).map (fun i : Nat => if i = j then a else 0)).sum =
      if j < n then a else 0 := by
  intro n
  induction n with
  | zero => simp
  | succ n ih =>
    rw [List.range_succ, List.map_append, List.sum_append, ih]
    by_cases h1 : j < n
    · have h2 : ¬ (n = j) := by omega
      simp [h1, h2, show j < n + 1 by omega]
    · by_cases h3 : n = j
      · simp [h1, h3]
      · simp [h1, h3, show ¬ (j < n + 1) by omega]

theorem onDay_sum (x : Expense) (m y : Int) :
    ((List.range (daysInMonth m y).toNat).map
        (fun i : Nat => if onDay y m (i + 1) x = true then x.amount else 0)).sum =
      if inSelectedMonth m y x = true then x.amount else 0 := by
  cases hd : x.date with
  | none => simp [onDay, inSelectedMonth, hd]
  | some t =>
    obtain ⟨_, _, hd0, hd1, _⟩ := fields_of_time t
    by_cases hin : YearFromTime t = y ∧ MonthFromTime t + 1 = m
    · obtain ⟨hyr, hmn⟩ := hin
      rw [hyr, hmn] at hd1
      have hfun : (fun i : Nat => if onDay y m (i + 1) x = true then x.amount else 0) =
          (fun i : Nat => if i = (DateFromTime t - 1).toNat then x.amount else 0) := by
        funext i
        have : (DateFromTime t = (i : Int) + 1) ↔ i = (DateFromTime t - 1).toNat := by omega
        simp [onDay, hd, hyr, hmn, this]
      have hlt : (DateFromTime t - 1).toNat < (daysInMonth m y).toNat := by omega
      rw [hfun, sum_indicator, if_pos hlt]
      simp [inSelectedMonth, hd, hyr, hmn]
    · have hfun : (fun i : Nat => if onDay y m (i + 1) x = true then x.amount else 0) =
          (fun _ : Nat => (0 : ℚ)) := by
        funext i
        have : ¬ (YearFromTime t = y ∧ MonthFromTime t + 1 = m ∧ DateFromTime t = (i : Int) + 1) :=
          fun h => hin ⟨h.1, h.2.1⟩
        simp [onDay, hd, this]
      rw [hfun]
      simp [inSelectedMonth, hd, hin]

theorem sumDaily_expected (expenses : List Expense) (m y : Int) :
    sumDaily ((List.range (daysInMonth m y).toNat).map
        (fun i : Nat => expectedEntry expenses y m (i + 1))) =
      sumAmounts (expenses.filter (inSelectedMonth m y)) := by
  unfold sumDaily
  rw [List.map_map]
  induction expenses with
  | nil =>
    have hzero : ((fun entry : DailyEntry => entry.amount) ∘
          fun i : Nat => expectedEntry [] y m (i + 1)) = (fun _ : Nat => (0 : ℚ)) := by
      funext i
      simp [expectedEntry, sumAmounts]
    rw [hzero]
    simp [sumAmounts]
  | cons x xs ih =>
    have hsplit : ((fun entry : DailyEntry => entry.amount) ∘
          fun i : Nat => expectedEntry (x :: xs) y m (i + 1)) =
        (fun i : Nat => (if onDay y m (i + 1) x = true then x.amount else 0) +
          ((fun entry : DailyEntry => entry.amount) ∘
            fun i : Nat => expectedEntry xs y m (i + 1)) i) := by
      funext i
      simp only [Function.comp, expectedEntry, sumAmounts, List.filter_cons]
      split_ifs <;> simp
    rw [hsplit, List.sum_map_add, ih, onDay_sum x m y]
    simp only [sumAmounts, List.filter_cons]
    split_ifs <;> simp

/-! ## The daily series: length, sum, entries, frame, failure -/

theorem sameDay_outside {m y : Int} (h1 : 1 ≤ m) (h2 : m ≤ 12) (hy : 100 ≤ y) (i : Nat)
    (hi : i < (daysInMonth m y).toNat) (e : Expense) (hcal : hasCalendarDate e = true)
    (hout : inSelectedMonth m y e = false) :
    sameDay (MakeDate (MakeDay y (m - 1) 1 + i) 0) e = Except.ok false := by
  obtain ⟨hyr, hmn, hdt⟩ := monthDay_fields y h1 h2 i hi
  have hkey : format_yyyy_MM_dd (some (MakeDate (MakeDay y (m - 1) 1 + i) 0)) =
      Except.ok (eraYear y, m, (i : Int) + 1) := by
    simp [format_yyyy_MM_dd, hyr, hmn, hdt]
  rw [sameDay_valid hkey e (hasValidDate_of_calendar e hcal),
    keyMatches_eq_onDay m _ (by omega) e hcal]
  congr 1
  unfold onDay
  unfold inSelectedMonth at hout
  cases hd : e.date with
  | none => rfl
  | some t =>
    rw [hd] at hout
    simp only [decide_eq_false_iff_not] at hout ⊢
    exact fun h => hout ⟨h.1, h.2.1⟩

/-- C1 (amended). For every expense list whose dates are all valid `Date`s, every
month `m` from 1 to 12 and every year `y` other than 0, `generateDailyData`
returns a list with exactly as many entries as month `m` of year `y` has days,
whatever the expenses are. -/
theorem generateDailyData_length (expenses : List Expense) (m y : Int)
    (hvalid : ∀ e ∈ expenses, hasValidDate e = true) (h1 : 1 ≤ m) (h2 : m ≤ 12) (hy : y ≠ 0) :
    ∃ entries, generateDailyData expenses m y = Except.ok entries ∧
      (entries.length : Int) = daysInMonth m y := by
  have hb := daysInMonth_bounds m y
  refine ⟨_, generateDailyData_valid expenses y h1 h2 hvalid, ?_⟩
  rw [List.length_map, List.length_range, daysInMonth_fullYear m hy]
  omega

/-- C1, instance of the amended statement: the scenario expenses, February 2024. -/
theorem generateDailyData_length_witness :
    (∀ e ∈ scenarioExpenses, hasValidDate e = true) ∧ (1 : Int) ≤ 2 ∧ (2 : Int) ≤ 12 ∧
      (2024 : Int) ≠ 0 ∧
      ∃ entries, generateDailyData scenarioExpenses 2 2024 = Except.ok entries ∧
        (entries.length : Int) = daysInMonth 2 2024 :=
  ⟨by decide, by decide, by decide, by decide,
    generateDailyData_length scenarioExpenses 2 2024 (by decide) (by decide) (by decide)
      (by decide)⟩

/-- C1 as stated fails: a record without a valid date makes `generateDailyData`
raise instead of returning a list, and for February of year 0 the list has 28
entries although that month has 29 days (the constructor reads year 0 as
1900). -/
theorem generateDailyData_length_counterexample :
    generateDailyData [expenseWithoutDate] 3 2024 =
        Except.error "RangeError: Invalid time value" ∧
      (generateDailyData [] 2 0).map List.length = Except.ok 28 ∧ daysInMonth 2 0 = 29 := by
  decide!

/-- C2 (amended). For every expense list with valid calendar dates, every month
`m` from 1 to 12 and every year `y` from 100 on, `generateDailyData` returns a
series whose amounts add up to the sum of the amounts of exactly those expenses
that are dated in month `m` of year `y`. -/
theorem dailySeries_sum_eq_total (expenses : List Expense) (m y : Int)
    (hcal : ∀ e ∈ expenses, hasCalendarDate e = true) (h1 : 1 ≤ m) (h2 : m ≤ 12)
    (hy : 100 ≤ y) :
    ∃ entries, generateDailyData expenses m y = Except.ok entries ∧
      sumDaily entries = sumAmounts (expenses.filter (inSelectedMonth m y)) :=
  ⟨_, generateDailyData_calendar expenses h1 h2 hy hcal, sumDaily_expected expenses m y⟩

/-- C2, instance of the amended statement: the scenario expenses, March 2024. -/
theorem dailySeries_sum_eq_total_witness :
    (∀ e ∈ scenarioExpenses, hasCalendarDate e = true) ∧ (1 : Int) ≤ 3 ∧ (3 : Int) ≤ 12 ∧
      (100 : Int) ≤ 2024 ∧
      ∃ entries, generateDailyData scenarioExpenses 3 2024 = Except.ok entries ∧
        sumDaily entries = sumAmounts (scenarioExpenses.filter (inSelectedMonth 3 2024)) :=
  ⟨by decide, by decide, by decide, by decide,
    dailySeries_sum_eq_total scenarioExpenses 3 2024 (by decide) (by decide) (by decide)
      (by decide)⟩

/-- C2 as stated fails for the selection March of year 24: the series is built
for March 1924, so an expense of 5 March 1924 is counted although no expense is
dated in March of year 24. -/
theorem dailySeries_sum_counterexample :
    hasCalendarDate expenseOf1924 = true ∧
      (generateDailyData [expenseOf1924] 3 24).map sumDaily = Except.ok 7 ∧
      sumAmounts ([expenseOf1924].filter (inSelectedMonth 3 24)) = 0 := by
  decide!

theorem expectedEntry_empty (expenses : List Expense) (y m k : Int)
    (h : ∀ e ∈ expenses, onDay y m k e = false) :
    expectedEntry expenses y m k = { day := dayLabel m k, amount := 0, count := 0 } := by
  have hf : expenses.filter (onDay y m k) = [] := by
    apply List.filter_eq_nil_iff.mpr
    intro e he
    simp [h e he]
  simp [expectedEntry, hf, sumAmounts, dayLabel]

/-- C3 (amended). For every expense list with valid calendar dates, every month
`m` from 1 to 12 and every year `y` from 100 on, `generateDailyData` returns one
entry per day of the month, in ascending order: the `k`-th entry carries the
label of day `k` in the form `MMM dd`, the sum of the amounts of the expenses
dated on that day and their number; for a day without expenses both are 0. -/
theorem generateDailyData_entries (expenses : List Expense) (m y : Int)
    (hcal : ∀ e ∈ expenses, hasCalendarDate e = true) (h1 : 1 ≤ m) (h2 : m ≤ 12)
    (hy : 100 ≤ y) :
    ∃ entries, generateDailyData expenses m y = Except.ok entries ∧
      (entries.length : Int) = daysInMonth m y ∧
      ∀ k : Nat, 1 ≤ k → (k : Int) ≤ daysInMonth m y →
        entries[k - 1]? = some
          { day := dayLabel m k
            amount := sumAmounts (expenses.filter (onDay y m k))
            count := (expenses.filter (onDay y m k)).length } ∧
        ((∀ e ∈ expenses, onDay y m k e = false) →
          entries[k - 1]? = some { day := dayLabel m k, amount := 0, count := 0 }) := by
  have hb := daysInMonth_bounds m y
  refine ⟨_, generateDailyData_calendar expenses h1 h2 hy hcal, ?_, ?_⟩
  · rw [List.length_map, List.length_range]
    omega
  · intro k hk1 hk2
    have hlt : k - 1 < (daysInMonth m y).toNat := by omega
    have hcast : (((k - 1 : Nat) : Int) + 1) = (k : Int) := by omega
    have hget : ((List.range (daysInMonth m y).toNat).map
        (fun i : Nat => expectedEntry expenses y m (i + 1)))[k - 1]? =
          some (expectedEntry expenses y m k) := by
      rw [List.getElem?_map, List.getElem?_range hlt]
      simp only [Option.map_some', hcast]
    refine ⟨?_, ?_⟩
    · rw [hget]; rfl
    · intro hnone
      rw [hget, expectedEntry_empty expenses y m k hnone]

/-- C3, instance of the amended statement: the scenario expenses, March 2024. -/
theorem generateDailyData_entries_witness :
    (∀ e ∈ scenarioExpenses, hasCalendarDate e = true) ∧ (1 : Int) ≤ 3 ∧ (3 : Int) ≤ 12 ∧
      (100 : Int) ≤ 2024 ∧
      ∃ entries, generateDailyData scenarioExpenses 3 2024 = Except.ok entries ∧
        (entries.length : Int) = daysInMonth 3 2024 ∧
        ∀ k : Nat, 1 ≤ k → (k : Int) ≤ daysInMonth 3 2024 →
          entries[k - 1]? = some
            { day := dayLabel 3 k
              amount := sumAmounts (scenarioExpenses.filter (onDay 2024 3 k))
              count := (scenarioExpenses.filter (onDay 2024 3 k)).length } ∧
          ((∀ e ∈ scenarioExpenses, onDay 2024 3 k e = false) →
            entries[k - 1]? = some { day := dayLabel 3 k, amount := 0, count := 0 }) :=
  ⟨by decide, by decide, by decide, by decide,
    generateDailyData_entries scenarioExpenses 3 2024 (by decide) (by decide) (by decide)
      (by decide)⟩

/-- C3 as stated fails: a record without a valid date makes `generateDailyData`
raise, and for the selection March of year 24 the fifth entry counts an expense
of 5 March 1924 although no expense is dated 5 March of year 24. -/
theorem generateDailyData_entries_counterexample :
    generateDailyData [expenseWithoutDate] 3 2024 =
        Except.error "RangeError: Invalid time value" ∧
      (generateDailyData [expenseOf1924] 3 24).map (fun entries => entries[4]?) =
        Except.ok (some { day := "Mar 05", amount := 7, count := 1 }) ∧
      [expenseOf1924].filter (onDay 24 3 5) = [] := by
  decide!

/-- C4 (amended). For every month `m` from 1 to 12 and every year `y` from 100
on, an expense with a valid calendar date outside month `m` of year `y` can be
added to or removed from the list, at any position, without changing the result
of `generateDailyData`; and when every expense has a valid calendar date
outside the month the result is the series of the month with amount 0 and count
0 on every day, not an error. -/
theorem generateDailyData_frame (m y : Int) (h1 : 1 ≤ m) (h2 : m ≤ 12) (hy : 100 ≤ y) :
    (∀ (xs ys : List Expense) (e : Expense), hasCalendarDate e = true →
        inSelectedMonth m y e = false →
        generateDailyData (xs ++ e :: ys) m y = generateDailyData (xs ++ ys) m y) ∧
      (∀ expenses : List Expense,
        (∀ e ∈ expenses, hasCalendarDate e = true ∧ inSelectedMonth m y e = false) →
        generateDailyData expenses m y =
          Except.ok ((List.range (daysInMonth m y).toNat).map
            (fun i : Nat => { day := dayLabel m (i + 1), amount := 0, count := 0 }))) := by
  constructor
  · intro xs ys e hcal hout
    rw [generateDailyData_eq _ y h1 h2, generateDailyData_eq _ y h1 h2,
      fullYearOfArgument_of_ge hy]
    apply mapE_congr
    intro day hday
    obtain ⟨i, hi, rfl⟩ := (mem_midnightsFrom _ _).mp hday
    unfold dailyEntry
    rw [filterE_drop _ e (sameDay_outside h1 h2 hy i hi e hcal hout)]
  · intro expenses h
    rw [generateDailyData_calendar expenses h1 h2 hy (fun e he => (h e he).1)]
    congr 1
    apply List.map_congr_left
    intro i _
    apply expectedEntry_empty
    intro e he
    have hout := (h e he).2
    unfold inSelectedMonth at hout
    unfold onDay
    cases hd : e.date with
    | none => rfl
    | some t =>
      rw [hd] at hout
      simp only [decide_eq_false_iff_not] at hout ⊢
      exact fun hh => hout ⟨hh.1, hh.2.1⟩

/-- C4, instance of the amended statement: March 2024. -/
theorem generateDailyData_frame_witness :
    (1 : Int) ≤ 3 ∧ (3 : Int) ≤ 12 ∧ (100 : Int) ≤ 2024 ∧
      ((∀ (xs ys : List Expense) (e : Expense), hasCalendarDate e = true →
          inSelectedMonth 3 2024 e = false →
          generateDailyData (xs ++ e :: ys) 3 2024 = generateDailyData (xs ++ ys) 3 2024) ∧
        (∀ expenses : List Expense,
          (∀ e ∈ expenses, hasCalendarDate e = true ∧ inSelectedMonth 3 2024 e = false) →
          generateDailyData expenses 3 2024 =
            Except.ok ((List.range (daysInMonth 3 2024).toNat).map
              (fun i : Nat => { day := dayLabel 3 (i + 1), amount := 0, count := 0 })))) :=
  ⟨by decide, by decide, by decide,
    generateDailyData_frame 3 2024 (by decide) (by decide) (by decide)⟩

/-- C4 as stated fails for the selection March of year 24: an expense of 5 March
1924 has a valid date outside March of year 24, yet adding it to the empty list
changes the result. -/
theorem generateDailyData_frame_counterexample :
    hasCalendarDate expenseOf1924 = true ∧ inSelectedMonth 3 24 expenseOf1924 = false ∧
      generateDailyData ([] ++ expenseOf1924 :: []) 3 24 ≠ generateDailyData ([] ++ []) 3 24 := by
  decide!

/-- C9 (amended). For every expense list, every month from 1 to 12 and every
year, `generateDailyData` returns a series exactly when the date of every
record is a valid `Date`; as soon as the date of one record is `Invalid Date`
(it is `undefined` or unparseable), `format` raises `RangeError` and no series
is returned. Years are those a `Date` can represent. -/
theorem generateDailyData_returns_iff (expenses : List Expense) (m y : Int) (h1 : 1 ≤ m)
    (h2 : m ≤ 12) :
    ((∃ entries, generateDailyData expenses m y = Except.ok entries) ↔
        ∀ e ∈ expenses, hasValidDate e = true) ∧
      ((∃ e ∈ expenses, e.date = none) →
        generateDailyData expenses m y = Except.error "RangeError: Invalid time value") := by
  refine ⟨⟨?_, ?_⟩, generateDailyData_invalid expenses y h1 h2⟩
  · rintro ⟨entries, hok⟩ e he
    by_contra hne
    have hd : e.date = none := by
      cases hd : e.date with
      | none => rfl
      | some t => simp [hasValidDate, hd] at hne
    rw [generateDailyData_invalid expenses y h1 h2 ⟨e, he, hd⟩] at hok
    cases hok
  · intro hvalid
    exact ⟨_, generateDailyData_valid expenses y h1 h2 hvalid⟩

/-- C9, instance of the amended statement: a list with a record without a valid
date, March 2024. -/
theorem generateDailyData_returns_iff_witness :
    (1 : Int) ≤ 3 ∧ (3 : Int) ≤ 12 ∧
      (((∃ entries, generateDailyData (scenarioExpenses ++ [expenseWithoutDate]) 3 2024 =
            Except.ok entries) ↔
          ∀ e ∈ scenarioExpenses ++ [expenseWithoutDate], hasValidDate e = true) ∧
        ((∃ e ∈ scenarioExpenses ++ [expenseWithoutDate], e.date = none) →
          generateDailyData (scenarioExpenses ++ [expenseWithoutDate]) 3 2024 =
            Except.error "RangeError: Invalid time value")) :=
  ⟨by decide, by decide,
    generateDailyData_returns_iff (scenarioExpenses ++ [expenseWithoutDate]) 3 2024 (by decide)
      (by decide)⟩

/-- C9 as stated fails: with one record without a valid date among valid ones,
`generateDailyData` raises `RangeError` instead of returning a series that
leaves the record out. -/
theorem generateDailyData_raises_counterexample :
    generateDailyData (scenarioExpenses ++ [expenseWithoutDate]) 3 2024 =
      Except.error "RangeError: Invalid time value" := by
  decide!

/-! ## The figures taken from the summary -/

theorem fetchReportsData_year (api : Api) (s : ReportsState) (year : Int) :
    (fetchReportsData api { s with selectedYear := year }).1.summary =
      (fetchReportsData api s).1.summary := by
  unfold fetchReportsData summaryPath expensesPath
  simp only
  cases api.getSummary ("/expenses/summary?month=" ++ toString s.selectedMonth) <;>
    cases api.getExpenses ("/expenses?month=" ++ toString s.selectedMonth) <;> rfl

/-- C5 (amended). After a fetch in which both requests succeed, "Total Spent"
shows the field `total_expenses` of the summary the service returned for the
path `/expenses/summary?month=m` (0 when the field is missing or 0). The
request carries the month only: whatever the outcome of the fetch, the figure
is the same for every selected year. -/
theorem totalSpent_after_fetch (api : Api) (s : ReportsState) (summaryData : Summary)
    (expensesData : List Expense)
    (hs : api.getSummary (summaryPath s) = Except.ok summaryData)
    (he : api.getExpenses (expensesPath s) = Except.ok expensesData) :
    summaryPath s = "/expenses/summary?month=" ++ toString s.selectedMonth ∧
      totalSpent (fetchReportsData api s).1 = orFallback summaryData.total_expenses 0 ∧
      ∀ year : Int, totalSpent (fetchReportsData api { s with selectedYear := year }).1 =
        totalSpent (fetchReportsData api s).1 := by
  refine ⟨rfl, ?_, ?_⟩
  · simp [fetchReportsData, hs, he, totalSpent]
  · intro year
    unfold totalSpent
    rw [fetchReportsData_year]

/-- C5, instance of the amended statement: the service of the scenario, March
2024. -/
theorem totalSpent_after_fetch_witness :
    scenarioApi.getSummary (summaryPath (emptyState 3 2024)) =
        Except.ok (summarize scenarioExpenses) ∧
      scenarioApi.getExpenses (expensesPath (emptyState 3 2024)) = Except.ok scenarioExpenses ∧
      (summaryPath (emptyState 3 2024) =
          "/expenses/summary?month=" ++ toString (emptyState 3 2024).selectedMonth ∧
        totalSpent (fetchReportsData scenarioApi (emptyState 3 2024)).1 =
          orFallback (summarize scenarioExpenses).total_expenses 0 ∧
        ∀ year : Int,
          totalSpent (fetchReportsData scenarioApi
            { emptyState 3 2024 with selectedYear := year }).1 =
          totalSpent (fetchReportsData scenarioApi (emptyState 3 2024)).1) :=
  ⟨rfl, rfl, totalSpent_after_fetch scenarioApi (emptyState 3 2024) (summarize scenarioExpenses)
    scenarioExpenses rfl rfl⟩

/-- C5 as stated fails: no remote service makes every fetch succeed and "Total
Spent" equal to the sum of the amounts of the expenses dated in the selected
month of the selected year. With one expense of 10 dated 1 March 2024 the sum is
10 for March 2024 and 0 for March 2023, but both selections send the same
request and show the same figure. -/
theorem totalSpent_counterexample :
    ¬ ∃ backend : List Expense → Api, ∀ (db : List Expense) (s : ReportsState),
      (fetchReportsData (backend db) s).2 = none ∧
      totalSpent (fetchReportsData (backend db) s).1 =
        sumAmounts (db.filter (inSelectedMonth s.selectedMonth s.selectedYear)) := by
  rintro ⟨backend, h⟩
  have h2024 := (h [expenseOfMarch2024] (emptyState 3 2024)).2
  have h2023 := (h [expenseOfMarch2024] { emptyState 3 2024 with selectedYear := 2023 }).2
  unfold totalSpent at h2024 h2023
  rw [fetchReportsData_year] at h2023
  rw [h2024] at h2023
  revert h2023
  decide!

theorem addToCategory_sum (category : String) (amount : ℚ) :
    ∀ entries : List (String × ℚ),
      ((addToCategory category amount entries).map Prod.snd).sum =
        (entries.map Prod.snd).sum + amount := by
  intro entries
  induction entries with
  | nil => simp [addToCategory]
  | cons entry rest ih =>
    unfold addToCategory
    split_ifs
    · simp only [List.map_cons, List.sum_cons]; ring
    · simp only [List.map_cons, List.sum_cons, ih]; ring

theorem categoryBreakdown_fold_sum (filtered : List Expense) :
    ∀ acc : List (String × ℚ),
      ((filtered.foldl (fun acc expense => addToCategory expense.category expense.amount acc)
          acc).map Prod.snd).sum = (acc.map Prod.snd).sum + sumAmounts filtered := by
  induction filtered with
  | nil => intro acc; simp [sumAmounts]
  | cons x xs ih =>
    intro acc
    rw [List.foldl_cons, ih, addToCategory_sum]
    simp only [sumAmounts, List.map_cons, List.sum_cons]
    ring

theorem categoryBreakdown_sum (filtered : List Expense) :
    ((categoryBreakdown filtered).map Prod.snd).sum = sumAmounts filtered := by
  unfold categoryBreakdown
  rw [categoryBreakdown_fold_sum]
  simp

theorem orFallback_zero (v : ℚ) : orFallback (some v) 0 = v := by
  show (if v = 0 then 0 else v) = v
  split_ifs with h
  · exact h.symm
  · rfl

/-- C6. Whatever records the remote service summarises, the values of the
category breakdown the view displays (the values of `pieData`, and the amounts
of the rows of the breakdown table) add up to the total it displays as "Total
Spent"; the same holds before any summary has arrived. -/
theorem breakdown_sum_eq_total (filtered expenses : List Expense) (loading : Bool)
    (month year : Int) :
    (((pieData (ReportsState.mk (some (summarize filtered)) expenses loading month year)).map
          Prod.snd).sum =
        totalSpent (ReportsState.mk (some (summarize filtered)) expenses loading month year) ∧
      ((breakdownRows (ReportsState.mk (some (summarize filtered)) expenses loading month
          year)).map (fun row => row.2.1)).sum =
        totalSpent (ReportsState.mk (some (summarize filtered)) expenses loading month year)) ∧
    (((pieData (ReportsState.mk none expenses loading month year)).map Prod.snd).sum =
        totalSpent (ReportsState.mk none expenses loading month year) ∧
      ((breakdownRows (ReportsState.mk none expenses loading month year)).map
          (fun row => row.2.1)).sum =
        totalSpent (ReportsState.mk none expenses loading month year)) := by
  have hsum := categoryBreakdown_sum filtered
  refine ⟨⟨?_, ?_⟩, ?_, ?_⟩
  · simp only [pieData, totalSpent, summarize, Option.bind, List.map_map, orFallback_zero]
    exact hsum
  · simp only [breakdownRows, breakdownEntries, totalSpent, summarize, Option.bind,
      List.map_map, orFallback_zero]
    exact hsum
  · simp [pieData, totalSpent, orFallback]
  · simp [breakdownRows, breakdownEntries, totalSpent, orFallback]

theorem toFixed1_eq_zero_iff (x : ℚ) : toFixed1 x = 0 ↔ -(1 / 20) < x ∧ x < 1 / 20 := by
  unfold toFixed1
  split_ifs with h
  · rw [div_eq_zero_iff, neg_eq_zero, Int.cast_eq_zero, Int.floor_eq_zero_iff]
    simp only [Set.mem_Ico]
    constructor
    · rintro (⟨h1, h2⟩ | h3)
      · constructor <;> linarith
      · norm_num at h3
    · rintro ⟨h1, h2⟩
      left
      constructor <;> linarith
  · rw [div_eq_zero_iff, Int.cast_eq_zero, Int.floor_eq_zero_iff]
    simp only [Set.mem_Ico]
    push_neg at h
    constructor
    · rintro (⟨h1, h2⟩ | h3)
      · constructor <;> linarith
      · norm_num at h3
    · rintro ⟨h1, h2⟩
      left
      constructor <;> linarith

/-- C7 (amended). For every summary whose total is 0 or missing, the divisor of
the percentage is 1, so the division is defined (no NaN, no Infinity) and the
value handed to `toFixed(1)` is the amount of the entry times 100; the
percentage shown is 0 exactly for the amounts of magnitude below 0.0005. -/
theorem percentage_of_zero_total (s : ReportsState)
    (hzero : s.summary.bind (fun x => x.total_expenses) = none ∨
      s.summary.bind (fun x => x.total_expenses) = some 0) :
    percentageDivisor s = 1 ∧
      ∀ amount : ℚ, percentageValue s amount = amount * 100 ∧
        (toFixed1 (percentageValue s amount) = 0 ↔ -(1 / 2000) < amount ∧ amount < 1 / 2000) := by
  have hdiv : percentageDivisor s = 1 := by
    unfold percentageDivisor
    rcases hzero with h | h <;> rw [h] <;> simp [orFallback]
  refine ⟨hdiv, fun amount => ?_⟩
  have hval : percentageValue s amount = amount * 100 := by
    unfold percentageValue
    rw [hdiv, div_one]
  refine ⟨hval, ?_⟩
  rw [hval, toFixed1_eq_zero_iff]
  constructor
  · rintro ⟨h1, h2⟩
    constructor <;> linarith
  · rintro ⟨h1, h2⟩
    constructor <;> linarith

/-- C7, instance of the amended statement: a summary with total 0 and an entry
of 5. The divisor is 1, the value handed to `toFixed(1)` is the amount times
100, and the one row of the table shows 500.0. -/
theorem percentage_of_zero_total_witness :
    (({ emptyState 3 2024 with summary := some zeroTotalSummary } : ReportsState).summary.bind
            (fun x => x.total_expenses) = none ∨
        ({ emptyState 3 2024 with summary := some zeroTotalSummary } : ReportsState).summary.bind
            (fun x => x.total_expenses) = some 0) ∧
      (percentageDivisor { emptyState 3 2024 with summary := some zeroTotalSummary } = 1 ∧
        ∀ amount : ℚ,
          percentageValue { emptyState 3 2024 with summary := some zeroTotalSummary } amount =
              amount * 100 ∧
            (toFixed1
                  (percentageValue { emptyState 3 2024 with summary := some zeroTotalSummary }
                    amount) = 0 ↔
              -(1 / 2000) < amount ∧ amount < 1 / 2000)) ∧
      breakdownEntries { emptyState 3 2024 with summary := some zeroTotalSummary } =
        [("Food", 5)] :=
  ⟨Or.inr rfl,
    percentage_of_zero_total { emptyState 3 2024 with summary := some zeroTotalSummary }
      (Or.inr rfl),
    rfl⟩

/-- C7 as stated fails: with a total that is 0, or missing, and an entry of
amount 5 the percentage of the row is 500.0, not 0. -/
theorem percentage_counterexample :
    breakdownRows { emptyState 3 2024 with summary := some zeroTotalSummary } =
        [("Food", 5, 500)] ∧
      breakdownRows { emptyState 3 2024 with summary := some missingTotalSummary } =
        [("Food", 5, 500)] := by
  decide!

theorem getDate_newDate_zero {m : Int} (y : Int) (h1 : 1 ≤ m) (h2 : m ≤ 12) :
    getDate (newDate y m 0) = daysInMonth m (fullYearOfArgument y) := by
  have hb := daysInMonth_bounds m (fullYearOfArgument y)
  unfold getDate newDate
  rw [MakeTime_midnight, MakeDay_zero_next _ h1 h2]
  refine (@fields_MakeDate (fullYearOfArgument y) (m - 1) (daysInMonth m (fullYearOfArgument y)) 0
    (by omega) (by omega) (by omega) ?_ (le_refl 0) (by decide)).2.2
  rw [sub_add_cancel]

/-- C8 (amended). For every month `m` from 1 to 12 and every year `y` other
than 0, the divisor of "Average Daily", `new Date(y, m, 0).getDate()`, is the
number of days of month `m` of year `y`; when the dates of the expenses are all
valid it is the length of the list `generateDailyData` returns for the same
selection; and the average shown is the total shown divided by that number of
days. -/
theorem averageDaily_divisor (s : ReportsState) (h1 : 1 ≤ s.selectedMonth)
    (h2 : s.selectedMonth ≤ 12) (hy : s.selectedYear ≠ 0) :
    averageDailyDivisor s = daysInMonth s.selectedMonth s.selectedYear ∧
      ((∀ e ∈ s.expenses, hasValidDate e = true) →
        ∃ entries, generateDailyData s.expenses s.selectedMonth s.selectedYear =
            Except.ok entries ∧ (entries.length : Int) = averageDailyDivisor s) ∧
      averageDaily s = totalSpent s / (daysInMonth s.selectedMonth s.selectedYear : ℚ) := by
  have hdiv : averageDailyDivisor s = daysInMonth s.selectedMonth s.selectedYear := by
    unfold averageDailyDivisor
    rw [getDate_newDate_zero _ h1 h2, daysInMonth_fullYear _ hy]
  refine ⟨hdiv, ?_, ?_⟩
  · intro hvalid
    have hb := daysInMonth_bounds s.selectedMonth s.selectedYear
    refine ⟨_, generateDailyData_valid s.expenses s.selectedYear h1 h2 hvalid, ?_⟩
    rw [List.length_map, List.length_range, daysInMonth_fullYear _ hy, hdiv]
    omega
  · unfold averageDaily
    rw [hdiv]

/-- C8, instance of the amended statement: February 2024. -/
theorem averageDaily_divisor_witness :
    (1 : Int) ≤ (emptyState 2 2024).selectedMonth ∧ (emptyState 2 2024).selectedMonth ≤ 12 ∧
      (emptyState 2 2024).selectedYear ≠ 0 ∧
      (averageDailyDivisor (emptyState 2 2024) = daysInMonth 2 2024 ∧
        ((∀ e ∈ (emptyState 2 2024).expenses, hasValidDate e = true) →
          ∃ entries, generateDailyData (emptyState 2 2024).expenses 2 2024 =
              Except.ok entries ∧
            (entries.length : Int) = averageDailyDivisor (emptyState 2 2024)) ∧
        averageDaily (emptyState 2 2024) =
          totalSpent (emptyState 2 2024) / (daysInMonth 2 2024 : ℚ)) :=
  ⟨by decide, by decide, by decide,
    averageDaily_divisor (emptyState 2 2024) (by decide) (by decide) (by decide)⟩

/-- C8 as stated fails for February of year 0: the constructor reads year 0 as
1900, so the divisor is 28 although February of year 0 has 29 days. And a
record without a valid date leaves no list whose length the divisor could
equal. -/
theorem averageDaily_divisor_counterexample :
    averageDailyDivisor (emptyState 2 0) = 28 ∧ daysInMonth 2 0 = 29 ∧
      generateDailyData [expenseWithoutDate] 2 2024 =
        Except.error "RangeError: Invalid time value" := by
  decide!

/-- C10. For the three expenses of the scenario and the selection March 2024,
the summary has total 175, count 3 and breakdown Food 150, Bills 25,
`generateDailyData` returns 31 entries, among which `Mar 01` has amount 100 and
count 1, `Mar 15` amount 50 and count 1, and `Mar 03` amount 0 and count 0, and
the view shows the total, the count and the breakdown of that summary. -/
theorem scenario_report :
    reportSummary scenarioExpenses 3 2024 =
        { total_expenses := some 175, total_count := some 3,
          category_breakdown := some [("Food", 150), ("Bills", 25)], budget_warning := none } ∧
      (generateDailyData scenarioExpenses 3 2024).map
          (fun entries =>
            (entries.length, entries.filter (fun entry => entry.day = "Mar 01"),
              entries.filter (fun entry => entry.day = "Mar 15"),
              entries.filter (fun entry => entry.day = "Mar 03"))) =
        Except.ok (31, [{ day := "Mar 01", amount := 100, count := 1 }],
          [{ day := "Mar 15", amount := 50, count := 1 }],
          [{ day := "Mar 03", amount := 0, count := 0 }]) ∧
      totalSpent (ReportsState.mk (some (reportSummary scenarioExpenses 3 2024))
        scenarioExpenses false 3 2024) = 175 ∧
      transactionCount (ReportsState.mk (some (reportSummary scenarioExpenses 3 2024))
        scenarioExpenses false 3 2024) = 3 ∧
      pieData (ReportsState.mk (some (reportSummary scenarioExpenses 3 2024))
        scenarioExpenses false 3 2024) = [("Food", 150), ("Bills", 25)] := by
  decide!

/-! ## The session: invariants -/

theorem getItem_setItem (storage : Storage) (key value : String) :
    getItem (setItem storage key value) key = some value := by
  simp [getItem, setItem]

theorem getItem_removeItem (storage : Storage) (key : String) :
    getItem (removeItem storage key) key = none := by
  simp [getItem, removeItem]

theorem headerMatches_bootstrap (s : AuthState) (h : headerMatches s) :
    headerMatches (bootstrap s).1 := by
  unfold bootstrap
  cases ht : getItem s.localStorage "token" with
  | none => exact h
  | some token =>
    by_cases he : token = ""
    · simp only [he, if_true]; exact h
    · simp only [he, if_false]
      refine ⟨fun u _ => ⟨token, ht, rfl⟩, fun hu => ?_⟩
      simp at hu

theorem headerMatches_login (response : PostOutcome (Option LoginBody)) (email password : String)
    (s : AuthState) (h : headerMatches s) : headerMatches (login response email password s).1 := by
  unfold login loginSettled
  cases response with
  | rejected error => exact h
  | resolved data =>
    cases data with
    | none => exact h
    | some body =>
      refine ⟨fun u _ => ⟨textOf body.access_token, getItem_setItem _ _ _, rfl⟩, fun hu => ?_⟩
      simp at hu

theorem headerMatches_register (response : PostOutcome Unit) (email password fullName : String)
    (s : AuthState) (h : headerMatches s) :
    headerMatches (register response email password fullName s).1 := by
  unfold register
  cases response <;> exact h

theorem headerMatches_logout (s : AuthState) : headerMatches (logout s).1 := by
  unfold logout
  refine ⟨fun u hu => ?_, fun _ => rfl⟩
  simp at hu

theorem headerMatches_updateUser (userData : Option User) (s : AuthState) (h : headerMatches s)
    (hs : authenticated s = true) (hd : userData.isSome = true) :
    headerMatches (updateUser userData s) := by
  unfold authenticated at hs
  obtain ⟨u, hu⟩ := Option.isSome_iff_exists.mp hs
  obtain ⟨v, hv⟩ := Option.isSome_iff_exists.mp hd
  refine ⟨fun _ _ => h.1 u hu, fun hn => ?_⟩
  simp [updateUser, hv] at hn

theorem headerMatches_afterCalls (calls : List AuthCall) :
    ∀ s : AuthState, headerMatches s → updatesKeepIdentity s calls = true →
      headerMatches (afterCalls s calls) := by
  induction calls with
  | nil => intro s h _; exact h
  | cons call calls ih =>
    intro s h hupd
    unfold updatesKeepIdentity at hupd
    rw [Bool.and_eq_true] at hupd
    unfold afterCalls
    rw [List.foldl_cons]
    apply ih _ _ hupd.2
    cases call with
    | bootstrap => exact headerMatches_bootstrap s h
    | login email password response => exact headerMatches_login response email password s h
    | register email password fullName response =>
      exact headerMatches_register response email password fullName s h
    | logout => exact headerMatches_logout s
    | updateUser userData =>
      have hc := hupd.1
      simp only [Bool.and_eq_true] at hc
      exact headerMatches_updateUser userData s h hc.1 hc.2

theorem signedOutClean_afterCall (s : AuthState) (call : AuthCall) (h : signedOutClean s)
    (hupd : updatesKeepIdentity s [call] = true) : signedOutClean (afterCall s call) := by
  cases call with
  | bootstrap =>
    show signedOutClean (bootstrap s).1
    unfold bootstrap
    cases ht : getItem s.localStorage "token" with
    | none => exact h
    | some token =>
      by_cases he : token = ""
      · simp only [he, if_true]; exact h
      · simp only [he, if_false]
        intro hu
        simp at hu
  | login email password response =>
    show signedOutClean (login response email password s).1
    unfold login loginSettled
    cases response with
    | rejected error => exact h
    | resolved data =>
      cases data with
      | none => exact h
      | some body => intro hu; simp at hu
  | register email password fullName response =>
    show signedOutClean (register response email password fullName s).1
    unfold register
    cases response <;> exact h
  | logout =>
    intro _
    exact getItem_removeItem _ _
  | updateUser userData =>
    simp only [updatesKeepIdentity, Bool.and_eq_true, Bool.and_true] at hupd
    obtain ⟨v, hv⟩ := Option.isSome_iff_exists.mp hupd.2
    intro hn
    simp [afterCall, updateUser, hv] at hn

theorem signedOutClean_afterCalls (calls : List AuthCall) :
    ∀ s : AuthState, signedOutClean s → updatesKeepIdentity s calls = true →
      signedOutClean (afterCalls s calls) := by
  induction calls with
  | nil => intro s h _; exact h
  | cons call calls ih =>
    intro s h hupd
    unfold updatesKeepIdentity at hupd
    rw [Bool.and_eq_true] at hupd
    unfold afterCalls
    rw [List.foldl_cons]
    apply ih _ _ hupd.2
    apply signedOutClean_afterCall s call h
    simp only [updatesKeepIdentity, Bool.and_true]
    exact hupd.1

theorem headerMatches_start (storage : Storage) :
    headerMatches (bootstrap (processStart storage)).1 :=
  headerMatches_bootstrap _ ⟨fun u hu => by simp [processStart] at hu, fun _ => rfl⟩

theorem signedOutClean_start (storage : Storage) (h : getItem storage "token" ≠ some "") :
    signedOutClean (bootstrap (processStart storage)).1 := by
  unfold bootstrap
  cases ht : getItem (processStart storage).localStorage "token" with
  | none => intro _; exact ht
  | some token =>
    have hne : token ≠ "" := by
      intro he
      apply h
      rw [← he]; exact ht
    simp only [hne, if_false]
    intro hu
    simp at hu

/-- C11 (amended). Start the process over a storage that holds under `token`
either nothing or a text that is not empty, let the bootstrap effect run, and
then make any sequence of calls of bootstrap, login (successful or not),
register, logout and updateUser, every updateUser being made on an
authenticated session with an identity that is not `null`. In every state
reached, a credential is stored under `token` if and only if the session is
authenticated. -/
theorem token_stored_iff_authenticated (storage : Storage) (calls : List AuthCall)
    (hstart : getItem storage "token" ≠ some "")
    (hupd : updatesKeepIdentity (bootstrap (processStart storage)).1 calls = true) :
    tokenStored (afterCalls (bootstrap (processStart storage)).1 calls) = true ↔
      authenticated (afterCalls (bootstrap (processStart storage)).1 calls) = true := by
  have hh := headerMatches_afterCalls calls _ (headerMatches_start storage) hupd
  have hc := signedOutClean_afterCalls calls _ (signedOutClean_start storage hstart) hupd
  unfold tokenStored authenticated
  cases hu : (afterCalls (bootstrap (processStart storage)).1 calls).user with
  | none => simp [hc hu]
  | some u =>
    obtain ⟨token, ht, _⟩ := hh.1 u hu
    simp [ht]

/-- C11, instance of the amended statement: a stored token, then a failed
login, a registration, a profile update, a logout and a successful login. -/
theorem token_stored_iff_authenticated_witness :
    getItem (storageWithToken "abc") "token" ≠ some "" ∧
      updatesKeepIdentity (bootstrap (processStart (storageWithToken "abc"))).1
        sampleCalls = true ∧
      (tokenStored (afterCalls (bootstrap (processStart (storageWithToken "abc"))).1
        sampleCalls) = true ↔
        authenticated (afterCalls (bootstrap (processStart (storageWithToken "abc"))).1
        sampleCalls) = true) :=
  ⟨by decide, by decide, token_stored_iff_authenticated (storageWithToken "abc") sampleCalls (by decide)
    (by decide)⟩

/-- C11 as stated fails in four ways. An updateUser on a session that is not
authenticated leaves a user without a stored token; an updateUser with `null`
after a login leaves a stored token without a user; a stored empty text is not
taken for a token by the bootstrap effect; and before the effect has run a
token left by an earlier process is stored while the user is `null`. -/
theorem token_stored_iff_authenticated_counterexample :
    (authenticated (afterCalls (processStart emptyStorage)
          [AuthCall.bootstrap, AuthCall.updateUser (some sampleUser)]) = true ∧
        tokenStored (afterCalls (processStart emptyStorage)
          [AuthCall.bootstrap, AuthCall.updateUser (some sampleUser)]) = false) ∧
      (authenticated (afterCalls (processStart emptyStorage)
          [AuthCall.bootstrap,
            AuthCall.login "u@x.com" "secret"
              (PostOutcome.resolved (some { access_token := some "abc" })),
            AuthCall.updateUser none]) = false ∧
        tokenStored (afterCalls (processStart emptyStorage)
          [AuthCall.bootstrap,
            AuthCall.login "u@x.com" "secret"
              (PostOutcome.resolved (some { access_token := some "abc" })),
            AuthCall.updateUser none]) = true) ∧
      (authenticated (afterCalls (processStart (storageWithToken "")) [AuthCall.bootstrap]) =
          false ∧
        tokenStored (afterCalls (processStart (storageWithToken "")) [AuthCall.bootstrap]) =
          true) ∧
      (authenticated (afterCalls (processStart (storageWithToken "abc")) []) = false ∧
        tokenStored (afterCalls (processStart (storageWithToken "abc")) []) = true) := by
  decide

/-- C12 (amended). After the bootstrap effect, through any sequence of calls of
bootstrap, login, register, logout and updateUser in which every updateUser is
made on an authenticated session with an identity that is not `null`: whenever
the session is authenticated a token is stored and the default Authorization
header is `Bearer ` followed by it, and whenever the session is not
authenticated there is no default Authorization header. -/
theorem header_follows_session (storage : Storage) (calls : List AuthCall)
    (hupd : updatesKeepIdentity (bootstrap (processStart storage)).1 calls = true) :
    (authenticated (afterCalls (bootstrap (processStart storage)).1 calls) = true →
        ∃ token,
          getItem (afterCalls (bootstrap (processStart storage)).1 calls).localStorage "token" =
            some token ∧
          (afterCalls (bootstrap (processStart storage)).1 calls).authorization =
            some ("Bearer " ++ token)) ∧
      (authenticated (afterCalls (bootstrap (processStart storage)).1 calls) = false →
        (afterCalls (bootstrap (processStart storage)).1 calls).authorization = none) := by
  have hh := headerMatches_afterCalls calls _ (headerMatches_start storage) hupd
  unfold authenticated
  constructor
  · intro ha
    obtain ⟨u, hu⟩ := Option.isSome_iff_exists.mp ha
    exact hh.1 u hu
  · intro ha
    apply hh.2
    cases hu : (afterCalls (bootstrap (processStart storage)).1 calls).user with
    | none => rfl
    | some u => simp [hu] at ha

/-- C12, instance of the amended statement: a successful login followed by a
profile update. -/
theorem header_follows_session_witness :
    updatesKeepIdentity (bootstrap (processStart emptyStorage)).1
        loginThenUpdate = true ∧
      ((authenticated (afterCalls (bootstrap (processStart emptyStorage)).1
          loginThenUpdate) = true →
        ∃ token,
          getItem (afterCalls (bootstrap (processStart emptyStorage)).1
            loginThenUpdate).localStorage "token" = some token ∧
          (afterCalls (bootstrap (processStart emptyStorage)).1
            loginThenUpdate).authorization =
            some ("Bearer " ++ token)) ∧
      (authenticated (afterCalls (bootstrap (processStart emptyStorage)).1
          loginThenUpdate) = false →
        (afterCalls (bootstrap (processStart emptyStorage)).1
          loginThenUpdate).authorization = none)) :=
  ⟨by decide, header_follows_session emptyStorage loginThenUpdate (by decide)⟩

/-- C12 as stated fails: after the bootstrap effect over an empty storage an
updateUser makes the session authenticated with no default header, and after a
successful login an updateUser with `null` leaves the header `Bearer abc` on a
session that is not authenticated. -/
theorem header_follows_session_counterexample :
    (authenticated (afterCalls (bootstrap (processStart emptyStorage)).1
          [AuthCall.updateUser (some sampleUser)]) = true ∧
        (afterCalls (bootstrap (processStart emptyStorage)).1
          [AuthCall.updateUser (some sampleUser)]).authorization = none) ∧
      (authenticated (afterCalls (bootstrap (processStart emptyStorage)).1
          [AuthCall.login "u@x.com" "secret"
              (PostOutcome.resolved (some { access_token := some "abc" })),
            AuthCall.updateUser none]) = false ∧
        (afterCalls (bootstrap (processStart emptyStorage)).1
          [AuthCall.login "u@x.com" "secret"
              (PostOutcome.resolved (some { access_token := some "abc" })),
            AuthCall.updateUser none]).authorization = some "Bearer abc") := by
  decide

/-! ## The session: the five operations -/

/-- C13 (amended). For every content of the storage, after the bootstrap effect
at process start the session is authenticated if and only if the text stored
under `token` is present and not empty; in that case the default Authorization
header is `Bearer ` followed by that text and the identity is the placeholder;
otherwise the session is not authenticated and there is no header. In both
cases `loading` is false, no request was sent and the storage is as it was. -/
theorem bootstrap_outcome (storage : Storage) :
    (authenticated (bootstrap (processStart storage)).1 = true ↔
        ∃ token, getItem storage "token" = some token ∧ token ≠ "") ∧
      (∀ token, getItem storage "token" = some token → token ≠ "" →
        (bootstrap (processStart storage)).1.authorization = some ("Bearer " ++ token) ∧
          (bootstrap (processStart storage)).1.user =
            some { email := "user@example.com", full_name := "User" }) ∧
      ((¬ ∃ token, getItem storage "token" = some token ∧ token ≠ "") →
        (bootstrap (processStart storage)).1.user = none ∧
          (bootstrap (processStart storage)).1.authorization = none) ∧
      (bootstrap (processStart storage)).1.loading = false ∧
      (bootstrap (processStart storage)).2 = [] ∧
      (bootstrap (processStart storage)).1.localStorage = storage := by
  unfold bootstrap authenticated
  cases ht : getItem (processStart storage).localStorage "token" with
  | none =>
    have ht2 : getItem storage "token" = none := ht
    simp [ht2, processStart]
  | some token =>
    have ht2 : getItem storage "token" = some token := ht
    by_cases he : token = ""
    · simp [ht2, he, processStart]
    · simp [ht2, he, processStart, placeholderUser]

/-- C13 as stated fails for a storage that holds the empty text under `token`:
a value is present under the key, yet after the bootstrap effect the session is
not authenticated. -/
theorem bootstrap_counterexample :
    (getItem (storageWithToken "") "token").isSome = true ∧
      authenticated (bootstrap (processStart (storageWithToken ""))).1 = false := by
  decide

/-- C14. For every identifier, secret and response carrying the token `t`, and
from every state, `login` returns `{ success: true }`, stores `t` under
`token`, sets the default Authorization header to `Bearer ` followed by `t`, and
sets the identity to the identifier with the name `User`. It sends the one
request to `/login`. -/
theorem login_success (email password t : String) (s : AuthState) :
    (login (PostOutcome.resolved (some { access_token := some t })) email password s).2.1 =
        { success := true, error := none } ∧
      getItem (login (PostOutcome.resolved (some { access_token := some t })) email password
        s).1.localStorage "token" = some t ∧
      (login (PostOutcome.resolved (some { access_token := some t })) email password
        s).1.authorization = some ("Bearer " ++ t) ∧
      (login (PostOutcome.resolved (some { access_token := some t })) email password s).1.user =
        some { email := email, full_name := "User" } ∧
      (login (PostOutcome.resolved (some { access_token := some t })) email password s).2.2 =
        [loginRequest email password] :=
  ⟨rfl, getItem_setItem _ _ _, rfl, rfl, rfl⟩

/-- C15 (amended). A rejected login returns, without throwing,
`{ success: false, error: m }` where `m` is the `detail` of the error response
when that field is present and not empty, and `Login failed` otherwise; a
rejected register does the same with the fallback `Registration failed`. -/
theorem rejection_message (detail : Option String) (email password fullName : String)
    (s : AuthState) :
    (∀ text, detail = some text → text ≠ "" →
        (login (PostOutcome.rejected { detail := detail }) email password s).2.1 =
            { success := false, error := some text } ∧
          (register (PostOutcome.rejected { detail := detail }) email password fullName s).2.1 =
            { success := false, error := some text }) ∧
      ((detail = none ∨ detail = some "") →
        (login (PostOutcome.rejected { detail := detail }) email password s).2.1 =
            { success := false, error := some "Login failed" } ∧
          (register (PostOutcome.rejected { detail := detail }) email password fullName s).2.1 =
            { success := false, error := some "Registration failed" }) := by
  constructor
  · intro text hd hne
    subst hd
    simp [login, loginSettled, register, orText, hne]
  · rintro (hd | hd) <;> subst hd <;> simp [login, loginSettled, register, orText]

/-- C15 as stated fails when the error response carries an empty `detail`: the
field is present, yet the message returned is the fallback. -/
theorem rejection_message_counterexample :
    (login (PostOutcome.rejected { detail := some "" }) "u@x.com" "wrong"
          (processStart emptyStorage)).2.1 =
        { success := false, error := some "Login failed" } ∧
      (register (PostOutcome.rejected { detail := some "" }) "u@x.com" "secret" "U"
          (processStart emptyStorage)).2.1 =
        { success := false, error := some "Registration failed" } := by
  decide

/-- C16. For every prior state and every login whose result has
`success: false`, the state after the call is the state before it: the stored
token, the default Authorization header and the identity are what they were,
and the storage was not written. -/
theorem failed_login_atomic (response : PostOutcome (Option LoginBody))
    (email password : String) (s : AuthState)
    (hfail : (login response email password s).2.1.success = false) :
    (login response email password s).1 = s ∧
      getItem (login response email password s).1.localStorage "token" =
        getItem s.localStorage "token" ∧
      (login response email password s).1.localStorage = s.localStorage ∧
      (login response email password s).1.authorization = s.authorization ∧
      (login response email password s).1.user = s.user := by
  have hs : (login response email password s).1 = s := by
    cases response with
    | rejected error => rfl
    | resolved data =>
      cases data with
      | none => rfl
      | some body => simp [login, loginSettled] at hfail
  rw [hs]
  exact ⟨rfl, rfl, rfl, rfl, rfl⟩

/-- C16, instance: the scenario of the specification, a login rejected with the
detail `Incorrect credentials` on a session that is not authenticated. -/
theorem failed_login_atomic_witness :
    (login (PostOutcome.rejected { detail := some "Incorrect credentials" }) "u@x.com" "wrong"
          (bootstrap (processStart emptyStorage)).1).2.1 =
        { success := false, error := some "Incorrect credentials" } ∧
      (login (PostOutcome.rejected { detail := some "Incorrect credentials" }) "u@x.com"
          "wrong" (bootstrap (processStart emptyStorage)).1).2.1.success = false ∧
      ((login (PostOutcome.rejected { detail := some "Incorrect credentials" }) "u@x.com"
            "wrong" (bootstrap (processStart emptyStorage)).1).1 =
          (bootstrap (processStart emptyStorage)).1 ∧
        getItem (login (PostOutcome.rejected { detail := some "Incorrect credentials" })
            "u@x.com" "wrong" (bootstrap (processStart emptyStorage)).1).1.localStorage
            "token" =
          getItem (bootstrap (processStart emptyStorage)).1.localStorage "token" ∧
        (login (PostOutcome.rejected { detail := some "Incorrect credentials" }) "u@x.com"
            "wrong" (bootstrap (processStart emptyStorage)).1).1.localStorage =
          (bootstrap (processStart emptyStorage)).1.localStorage ∧
        (login (PostOutcome.rejected { detail := some "Incorrect credentials" }) "u@x.com"
            "wrong" (bootstrap (processStart emptyStorage)).1).1.authorization =
          (bootstrap (processStart emptyStorage)).1.authorization ∧
        (login (PostOutcome.rejected { detail := some "Incorrect credentials" }) "u@x.com"
            "wrong" (bootstrap (processStart emptyStorage)).1).1.user =
          (bootstrap (processStart emptyStorage)).1.user) :=
  ⟨by decide, by decide,
    failed_login_atomic (PostOutcome.rejected { detail := some "Incorrect credentials" })
      "u@x.com" "wrong" (bootstrap (processStart emptyStorage)).1 (by decide)⟩

/-- C17. For every prior state and every outcome of the request, `register`
leaves the state as it was: the identity, the stored token and the default
Authorization header are unchanged. It sends the one request to `/register`. -/
theorem register_frame (response : PostOutcome Unit) (email password fullName : String)
    (s : AuthState) :
    (register response email password fullName s).1 = s ∧
      (register response email password fullName s).1.user = s.user ∧
      getItem (register response email password fullName s).1.localStorage "token" =
        getItem s.localStorage "token" ∧
      (register response email password fullName s).1.authorization = s.authorization ∧
      (register response email password fullName s).2.2 =
        [registerRequest email password fullName] := by
  cases response <;> exact ⟨rfl, rfl, rfl, rfl, rfl⟩

/-- C18. From every state, `logout` sends no request and leaves no token in the
storage, no default Authorization header and no user; the bootstrap effect of a
process started afterwards over the same storage yields a session that is not
authenticated, with no stored credential and no header. -/
theorem logout_clears (s : AuthState) :
    (logout s).2 = [] ∧
      getItem (logout s).1.localStorage "token" = none ∧
      (logout s).1.authorization = none ∧
      (logout s).1.user = none ∧
      authenticated (bootstrap (processStart (logout s).1.localStorage)).1 = false ∧
      getItem (bootstrap (processStart (logout s).1.localStorage)).1.localStorage "token" =
        none ∧
      (bootstrap (processStart (logout s).1.localStorage)).1.authorization = none ∧
      (bootstrap (processStart (logout s).1.localStorage)).2 = [] := by
  have hrem : getItem (removeItem s.localStorage "token") "token" = none :=
    getItem_removeItem _ _
  have hboot : bootstrap (processStart (removeItem s.localStorage "token")) =
      ({ processStart (removeItem s.localStorage "token") with loading := false }, []) := by
    unfold bootstrap
    rw [show getItem (processStart (removeItem s.localStorage "token")).localStorage "token" =
      none from hrem]
  have hl : (logout s).1.localStorage = removeItem s.localStorage "token" := rfl
  refine ⟨rfl, hrem, rfl, rfl, ?_, ?_, ?_, ?_⟩
  · rw [hl, hboot]; rfl
  · rw [hl, hboot]; exact hrem
  · rw [hl, hboot]; rfl
  · rw [hl, hboot]

/-- C19. For every state and every new identity, `updateUser` makes the identity
exactly the new one and leaves the storage, hence the stored token, and the
default Authorization header unchanged. -/
theorem updateUser_frame (userData : Option User) (s : AuthState) :
    (updateUser userData s).user = userData ∧
      (updateUser userData s).localStorage = s.localStorage ∧
      getItem (updateUser userData s).localStorage "token" = getItem s.localStorage "token" ∧
      (updateUser userData s).authorization = s.authorization :=
  ⟨rfl, rfl, rfl, rfl⟩

/-- C20 (amended). For every successful login that was issued a token `t` that
is not empty, the bootstrap effect of a process started afterwards over the
same storage yields an authenticated session whose default Authorization header
is `Bearer ` followed by `t`. -/
theorem token_survives_reload (email password t : String) (s : AuthState) (ht : t ≠ "") :
    authenticated (bootstrap (processStart
        (login (PostOutcome.resolved (some { access_token := some t })) email password
          s).1.localStorage)).1 = true ∧
      (bootstrap (processStart
        (login (PostOutcome.resolved (some { access_token := some t })) email password
          s).1.localStorage)).1.authorization = some ("Bearer " ++ t) := by
  have hget : getItem (processStart
      (login (PostOutcome.resolved (some { access_token := some t })) email password
        s).1.localStorage).localStorage "token" = some t := getItem_setItem _ _ _
  unfold bootstrap
  rw [hget]
  simp [ht, authenticated]

/-- C20, instance of the amended statement: the token `abc`. -/
theorem token_survives_reload_witness :
    "abc" ≠ "" ∧
      (authenticated (bootstrap (processStart
          (login (PostOutcome.resolved (some { access_token := some "abc" })) "u@x.com"
            "secret" (bootstrap (processStart emptyStorage)).1).1.localStorage)).1 = true ∧
        (bootstrap (processStart
          (login (PostOutcome.resolved (some { access_token := some "abc" })) "u@x.com"
            "secret" (bootstrap (processStart emptyStorage)).1).1.localStorage)).1.authorization =
          some ("Bearer " ++ "abc")) :=
  ⟨by decide,
    token_survives_reload "u@x.com" "secret" "abc" (bootstrap (processStart emptyStorage)).1
      (by decide)⟩

/-- C20 as stated fails for the empty token: the login succeeds and stores it,
but the bootstrap effect of the next process does not take the empty text for a
token, and the session is not authenticated. -/
theorem token_survives_reload_counterexample :
    (login (PostOutcome.resolved (some { access_token := some "" })) "u@x.com" "secret"
          (bootstrap (processStart emptyStorage)).1).2.1 = { success := true, error := none } ∧
      authenticated (bootstrap (processStart
          (login (PostOutcome.resolved (some { access_token := some "" })) "u@x.com" "secret"
            (bootstrap (processStart emptyStorage)).1).1.localStorage)).1 = false ∧
      (bootstrap (processStart
          (login (PostOutcome.resolved (some { access_token := some "" })) "u@x.com" "secret"
            (bootstrap (processStart emptyStorage)).1).1.localStorage)).1.authorization =
        none := by
  decide

/-! ## Two logins in flight -/

theorem setItem_setItem (storage : Storage) (key first second : String) :
    setItem (setItem storage key first) key second = setItem storage key second := by
  funext k
  unfold setItem
  by_cases h : k = key
  · simp [h]
  · simp [h]

theorem loginsOutOfOrder_first_succeeds (data : LoginBody)
    (response2 : PostOutcome (Option LoginBody)) (email1 password1 email2 password2 : String)
    (s : AuthState) :
    (loginsOutOfOrder (PostOutcome.resolved (some data)) response2 email1 password1 email2
        password2 s).1 =
      (login (PostOutcome.resolved (some data)) email1 password1 s).1 := by
  cases response2 with
  | resolved body =>
    cases body with
    | none => rfl
    | some data2 =>
      show AuthState.mk _ _ _ _ = AuthState.mk _ _ _ _
      simp only [loginSettled, setItem_setItem]
  | rejected error => rfl

/-- Claim C21, amended. Two calls of `login` complete out of order, the
response of the first arriving last. The final state is the one the first call
alone would have produced when the first call succeeds; it is the one the
second call alone would have produced only when the first call fails. Both
requests are sent, in the order of the calls. -/
theorem logins_out_of_order_final_state (response1 response2 : PostOutcome (Option LoginBody))
    (email1 password1 email2 password2 : String) (s : AuthState) :
    (∀ data, response1 = PostOutcome.resolved (some data) →
        (loginsOutOfOrder response1 response2 email1 password1 email2 password2 s).1 =
          (login response1 email1 password1 s).1) ∧
      ((∀ data, response1 ≠ PostOutcome.resolved (some data)) →
        (loginsOutOfOrder response1 response2 email1 password1 email2 password2 s).1 =
          (login response2 email2 password2 s).1) ∧
      (loginsOutOfOrder response1 response2 email1 password1 email2 password2 s).2.2.2 =
        [loginRequest email1 password1, loginRequest email2 password2] := by
  refine ⟨?_, ?_, rfl⟩
  · intro data h
    rw [h]
    exact loginsOutOfOrder_first_succeeds data response2 email1 password1 email2 password2 s
  · intro h
    cases response1 with
    | resolved body =>
      cases body with
      | none => rfl
      | some data => exact absurd rfl (h data)
    | rejected error => rfl

/-- Claim C21 as written fails: both calls succeed, the first with the token
`t1` and the second with `t2`, and the response of the first arrives last. The
stored token, the header and the identity are then those of the first call,
not those the second call produces. -/
theorem logins_out_of_order_counterexample :
    getItem
        (loginsOutOfOrder (PostOutcome.resolved (some { access_token := some "t1" }))
          (PostOutcome.resolved (some { access_token := some "t2" })) "first@example.com" "p1"
          "second@example.com" "p2" (processStart emptyStorage)).1.localStorage "token" =
        some "t1" ∧
      (loginsOutOfOrder (PostOutcome.resolved (some { access_token := some "t1" }))
          (PostOutcome.resolved (some { access_token := some "t2" })) "first@example.com" "p1"
          "second@example.com" "p2" (processStart emptyStorage)).1.authorization =
        some "Bearer t1" ∧
      (loginsOutOfOrder (PostOutcome.resolved (some { access_token := some "t1" }))
          (PostOutcome.resolved (some { access_token := some "t2" })) "first@example.com" "p1"
          "second@example.com" "p2" (processStart emptyStorage)).1.user =
        some { email := "first@example.com", full_name := "User" } ∧
      getItem
        (login (PostOutcome.resolved (some { access_token := some "t2" })) "second@example.com"
          "p2" (processStart emptyStorage)).1.localStorage "token" = some "t2" ∧
      (login (PostOutcome.resolved (some { access_token := some "t2" })) "second@example.com"
          "p2" (processStart emptyStorage)).1.authorization = some "Bearer t2" ∧
      (login (PostOutcome.resolved (some { access_token := some "t2" })) "second@example.com"
          "p2" (processStart emptyStorage)).1.user =
        some { email := "second@example.com", full_name := "User" } := by
  decide

/-! ## The route guard -/

/-- Claim C30. For every state of the session, `ProtectedRoute` renders its
children exactly when `loading` is false and `user` is not `null`; while
loading it renders the loading placeholder; when `loading` is false and `user`
is `null` it renders the redirect to `/login`, which is not the children. -/
theorem ProtectedRoute_children_iff (s : AuthState) :
    (ProtectedRoute s = Rendered.children ↔ s.loading = false ∧ s.user ≠ none) ∧
      (s.loading = true → ProtectedRoute s = Rendered.loadingPlaceholder) ∧
      (s.loading = false → s.user = none → ProtectedRoute s = Rendered.navigate "/login") ∧
      Rendered.loadingPlaceholder ≠ Rendered.children ∧
      Rendered.navigate "/login" ≠ Rendered.children := by
  unfold ProtectedRoute
  cases hl : s.loading <;> cases hu : s.user <;> simp

/-! ## The dashboard -/

/-- Claim C28. Whatever the two requests of `fetchDashboardData` settle to,
afterwards `loading` is false, `recentExpenses` is an array and `summary` is a
non-null object. A rejected request gives both defaults; a summary that fails
the validation gives the default summary and one that passes is kept; an
expense list that is not an array gives the empty list and one that is an
array is kept. -/
theorem fetchDashboardData_safe (summaryRes : PostOutcome SummaryData)
    (expensesRes : PostOutcome ExpensesData) (s : DashboardState) :
    (fetchDashboardData summaryRes expensesRes s).loading = false ∧
      isArray (fetchDashboardData summaryRes expensesRes s).recentExpenses = true ∧
      isNonNullObject (fetchDashboardData summaryRes expensesRes s).summary = true ∧
      ((∃ error, summaryRes = PostOutcome.rejected error ∨
            expensesRes = PostOutcome.rejected error) →
        (fetchDashboardData summaryRes expensesRes s).summary = defaultSummary ∧
          (fetchDashboardData summaryRes expensesRes s).recentExpenses = ExpensesData.array []) ∧
      (∀ summaryData expensesData,
        summaryRes = PostOutcome.resolved summaryData →
          expensesRes = PostOutcome.resolved expensesData →
            (validSummary summaryData = false →
                (fetchDashboardData summaryRes expensesRes s).summary = defaultSummary) ∧
              (validSummary summaryData = true →
                (fetchDashboardData summaryRes expensesRes s).summary = summaryData) ∧
              (expensesData = ExpensesData.other →
                (fetchDashboardData summaryRes expensesRes s).recentExpenses =
                  ExpensesData.array []) ∧
              (∀ items, expensesData = ExpensesData.array items →
                (fetchDashboardData summaryRes expensesRes s).recentExpenses =
                  ExpensesData.array items)) ∧
      defaultSummary =
        SummaryData.object false
          { total_expenses := some 0, total_count := some 0, category_breakdown := some [],
            budget_warning := none } := by
  cases summaryRes with
  | rejected e1 =>
    cases expensesRes <;>
      simp [fetchDashboardData, isArray, isNonNullObject, defaultSummary]
  | resolved summaryData =>
    cases expensesRes with
    | rejected e2 => simp [fetchDashboardData, isArray, isNonNullObject, defaultSummary]
    | resolved expensesData =>
      cases summaryData with
      | falsy =>
        cases expensesData <;>
          simp [fetchDashboardData, isArray, isNonNullObject, defaultSummary, validSummary]
      | primitive =>
        cases expensesData <;>
          simp [fetchDashboardData, isArray, isNonNullObject, defaultSummary, validSummary]
      | array =>
        cases expensesData <;>
          simp [fetchDashboardData, isArray, isNonNullObject, defaultSummary, validSummary]
      | object detailIsArray fields =>
        cases detailIsArray <;> cases expensesData <;>
          simp [fetchDashboardData, isArray, isNonNullObject, defaultSummary, validSummary]

/-! ## The image input of the profile -/

/-- Claim C27, where the code departs from it. A file of exactly
5 * 1024 * 1024 bytes is not smaller than 5 MB, and `handleImageChange` stores
it as `profileImage` and shows no message; in general a chosen file is rejected
exactly when its size exceeds 5 * 1024 * 1024 bytes, and a rejected file leaves
the state as it was. -/
theorem handleImageChange_at_limit :
    fiveMegabyteFile.size = 5 * 1024 * 1024 ∧
      (handleImageChange (some fiveMegabyteFile) freshProfile).1.profileImage =
        some fiveMegabyteFile ∧
      (handleImageChange (some fiveMegabyteFile) freshProfile).1.imagePreview =
        fiveMegabyteFile.dataUrl ∧
      (handleImageChange (some fiveMegabyteFile) freshProfile).2 = [] ∧
      (∀ file view,
        (handleImageChange (some file) view).2 =
            [Toast.error "Image size should be less than 5MB"] ↔
          5 * 1024 * 1024 < file.size) ∧
      (∀ file view, 5 * 1024 * 1024 < file.size →
        (handleImageChange (some file) view).1 = view) ∧
      (∀ file view, file.size ≤ 5 * 1024 * 1024 →
        (handleImageChange (some file) view).1.profileImage = some file ∧
          (handleImageChange (some file) view).2 = []) := by
  refine ⟨by decide, by decide, by decide, by decide, ?_, ?_, ?_⟩
  · intro file view
    unfold handleImageChange
    by_cases h : file.size > 5 * 1024 * 1024
    · simp [h]
    · simp [h]
  · intro file view h
    unfold handleImageChange
    simp [h]
  · intro file view h
    unfold handleImageChange
    have h' : ¬ file.size > 5 * 1024 * 1024 := by omega
    simp [h']

/-! ## The password forms -/

/-- Claim C26. In each of the three password forms the submit handler sends a
request exactly when the two checks pass, and then it sends the one request of
the form. A mismatch of password and confirmation shows the mismatch message,
whatever the length, and leaves the state as it was; a matching password that
is too short (fewer than 6 code units in `Register`, fewer than 8 in
`ResetPassword` and in the password change of `Profile`) shows the length
message and leaves the state as it was. -/
theorem password_forms_validate :
    (∀ (response : PostOutcome Unit) (view : RegisterView) (auth : AuthState),
      ((registerSubmit response view auth).requests ≠ [] ↔
          view.formData.password = view.formData.confirmPassword ∧
            6 ≤ utf16Length view.formData.password) ∧
        (view.formData.password = view.formData.confirmPassword →
          6 ≤ utf16Length view.formData.password →
            (registerSubmit response view auth).requests =
              [registerRequest view.formData.email view.formData.password
                view.formData.fullName]) ∧
        (view.formData.password ≠ view.formData.confirmPassword →
          (registerSubmit response view auth).state = (view, auth) ∧
            (registerSubmit response view auth).toasts = [Toast.error "Passwords do not match"] ∧
            (registerSubmit response view auth).requests = [] ∧
            (registerSubmit response view auth).navigation = none) ∧
        (view.formData.password = view.formData.confirmPassword →
          utf16Length view.formData.password < 6 →
            (registerSubmit response view auth).state = (view, auth) ∧
              (registerSubmit response view auth).toasts =
                [Toast.error "Password must be at least 6 characters"] ∧
              (registerSubmit response view auth).requests = [] ∧
              (registerSubmit response view auth).navigation = none)) ∧
      (∀ (response : PostOutcome Unit) (view : ResetView),
        ((resetSubmit response view).requests ≠ [] ↔
            view.formData.new_password = view.formData.confirm_password ∧
              8 ≤ utf16Length view.formData.new_password) ∧
          (view.formData.new_password = view.formData.confirm_password →
            8 ≤ utf16Length view.formData.new_password →
              (resetSubmit response view).requests = [resetRequest view.formData]) ∧
          (view.formData.new_password ≠ view.formData.confirm_password →
            (resetSubmit response view).state = view ∧
              (resetSubmit response view).toasts = [Toast.error "Passwords do not match"] ∧
              (resetSubmit response view).requests = [] ∧
              (resetSubmit response view).navigation = none) ∧
          (view.formData.new_password = view.formData.confirm_password →
            utf16Length view.formData.new_password < 8 →
              (resetSubmit response view).state = view ∧
                (resetSubmit response view).toasts =
                  [Toast.error "Password must be at least 8 characters long"] ∧
                (resetSubmit response view).requests = [] ∧
                (resetSubmit response view).navigation = none)) ∧
      (∀ (response : PostOutcome Unit) (view : ProfileView),
        ((handlePasswordUpdate response view).requests ≠ [] ↔
            view.passwordData.new_password = view.passwordData.confirm_password ∧
              8 ≤ utf16Length view.passwordData.new_password) ∧
          (view.passwordData.new_password = view.passwordData.confirm_password →
            8 ≤ utf16Length view.passwordData.new_password →
              (handlePasswordUpdate response view).requests =
                [changePasswordRequest view.passwordData]) ∧
          (view.passwordData.new_password ≠ view.passwordData.confirm_password →
            (handlePasswordUpdate response view).state = view ∧
              (handlePasswordUpdate response view).toasts =
                [Toast.error "New passwords do not match"] ∧
              (handlePasswordUpdate response view).requests = [] ∧
              (handlePasswordUpdate response view).navigation = none) ∧
          (view.passwordData.new_password = view.passwordData.confirm_password →
            utf16Length view.passwordData.new_password < 8 →
              (handlePasswordUpdate response view).state = view ∧
                (handlePasswordUpdate response view).toasts =
                  [Toast.error "Password must be at least 8 characters long"] ∧
                (handlePasswordUpdate response view).requests = [] ∧
                (handlePasswordUpdate response view).navigation = none)) := by
  refine ⟨?_, ?_, ?_⟩
  · intro response view auth
    unfold registerSubmit
    by_cases hm : view.formData.password = view.formData.confirmPassword
    · by_cases hl : utf16Length view.formData.confirmPassword < 6
      · have hl' : ¬ 6 ≤ utf16Length view.formData.confirmPassword := by omega
        simp [hm, hl, hl']
      · have hl' : 6 ≤ utf16Length view.formData.confirmPassword := by omega
        cases response <;> simp [hm, hl, hl', register]
    · simp [hm]
  · intro response view
    unfold resetSubmit
    by_cases hm : view.formData.new_password = view.formData.confirm_password
    · by_cases hl : utf16Length view.formData.confirm_password < 8
      · have hl' : ¬ 8 ≤ utf16Length view.formData.confirm_password := by omega
        simp [hm, hl, hl']
      · have hl' : 8 ≤ utf16Length view.formData.confirm_password := by omega
        cases response <;> simp [hm, hl, hl']
    · simp [hm]
  · intro response view
    unfold handlePasswordUpdate
    by_cases hm : view.passwordData.new_password = view.passwordData.confirm_password
    · by_cases hl : utf16Length view.passwordData.confirm_password < 8
      · have hl' : ¬ 8 ≤ utf16Length view.passwordData.confirm_password := by omega
        simp [hm, hl, hl']
      · have hl' : 8 ≤ utf16Length view.passwordData.confirm_password := by omega
        cases response <;> simp [hm, hl, hl']
    · simp [hm]

/-! ## The year in the requests of the Reports view -/

theorem fetchReportsData_year_expenses (api : Api) (s : ReportsState) (year : Int) :
    (fetchReportsData api { s with selectedYear := year }).1.expenses =
      (fetchReportsData api s).1.expenses := by
  unfold fetchReportsData summaryPath expensesPath
  simp only
  cases api.getSummary ("/expenses/summary?month=" ++ toString s.selectedMonth) <;>
    cases api.getExpenses ("/expenses?month=" ++ toString s.selectedMonth) <;> rfl

/-- Claim C29. For a state of the Reports view and two years, the paths of the
two requests of `fetchReportsData` are the same for both selections, so the
summary and the list fetched are the same, and with them the total, the
transaction count, the breakdown entries, the pie data and the breakdown rows
shown. The daily series depends on the year: for February it has 29 entries in
2024 and 28 in 2023. -/
theorem reports_requests_ignore_year (api : Api) (s : ReportsState) (y1 y2 : Int) :
    summaryPath { s with selectedYear := y1 } = summaryPath { s with selectedYear := y2 } ∧
      expensesPath { s with selectedYear := y1 } = expensesPath { s with selectedYear := y2 } ∧
      (fetchReportsData api { s with selectedYear := y1 }).1.summary =
        (fetchReportsData api { s with selectedYear := y2 }).1.summary ∧
      (fetchReportsData api { s with selectedYear := y1 }).1.expenses =
        (fetchReportsData api { s with selectedYear := y2 }).1.expenses ∧
      totalSpent (fetchReportsData api { s with selectedYear := y1 }).1 =
        totalSpent (fetchReportsData api { s with selectedYear := y2 }).1 ∧
      transactionCount (fetchReportsData api { s with selectedYear := y1 }).1 =
        transactionCount (fetchReportsData api { s with selectedYear := y2 }).1 ∧
      breakdownEntries (fetchReportsData api { s with selectedYear := y1 }).1 =
        breakdownEntries (fetchReportsData api { s with selectedYear := y2 }).1 ∧
      pieData (fetchReportsData api { s with selectedYear := y1 }).1 =
        pieData (fetchReportsData api { s with selectedYear := y2 }).1 ∧
      breakdownRows (fetchReportsData api { s with selectedYear := y1 }).1 =
        breakdownRows (fetchReportsData api { s with selectedYear := y2 }).1 ∧
      (generateDailyData [] 2 2024).map List.length = Except.ok 29 ∧
      (generateDailyData [] 2 2023).map List.length = Except.ok 28 := by
  have hs := (fetchReportsData_year api s y1).trans (fetchReportsData_year api s y2).symm
  have he :=
    (fetchReportsData_year_expenses api s y1).trans (fetchReportsData_year_expenses api s y2).symm
  refine ⟨rfl, rfl, hs, he, ?_, ?_, ?_, ?_, ?_, by decide!, by decide!⟩
  · unfold totalSpent
    rw [hs]
  · unfold transactionCount
    rw [hs]
  · unfold breakdownEntries
    rw [hs]
  · unfold pieData
    rw [hs]
  · unfold breakdownRows breakdownEntries percentageValue percentageDivisor
    rw [hs]

/-! ## The currency preference -/

theorem groupThousandsLoop_fuel (n : Nat) :
    ∀ fuel1 fuel2 : Nat, n ≤ fuel1 → n ≤ fuel2 →
      groupThousandsLoop fuel1 n = groupThousandsLoop fuel2 n := by
  induction n using Nat.strong_induction_on with
  | _ n ih =>
    intro fuel1 fuel2 h1 h2
    by_cases hn : n < 1000
    · cases fuel1 <;> cases fuel2 <;> simp [groupThousandsLoop, hn]
    · cases fuel1 with
      | zero => omega
      | succ f1 =>
        cases fuel2 with
        | zero => omega
        | succ f2 =>
          have hlt : n / 1000 < n := Nat.div_lt_self (by omega) (by omega)
          simp only [groupThousandsLoop, if_neg hn]
          rw [ih (n / 1000) hlt f1 f2 (by omega) (by omega)]

theorem groupThousands_eq (n : Nat) :
    groupThousands n =
      if n < 1000 then toString n
      else groupThousands (n / 1000) ++ "," ++ threeDigits (n % 1000) := by
  unfold groupThousands
  by_cases hn : n < 1000
  · cases n <;> simp [groupThousandsLoop, hn]
  · cases n with
    | zero => omega
    | succ m =>
      have hlt : (m + 1) / 1000 < m + 1 := Nat.div_lt_self (by omega) (by omega)
      simp only [groupThousandsLoop, if_neg hn]
      rw [groupThousandsLoop_fuel ((m + 1) / 1000) m ((m + 1) / 1000) (by omega) (le_refl _)]

theorem twoDigits_shape : ∀ k, k < 100 →
    (twoDigits k).length = 2 ∧ (twoDigits k).toList.all Char.isDigit = true := by
  decide!

theorem threeDigits_shape : ∀ k, k < 1000 →
    (threeDigits k).length = 3 ∧ (threeDigits k).toList.all Char.isDigit = true := by
  decide!

theorem roundedHundredths_near (value : ℚ) :
    |(|value| * 100 - (roundedHundredths value : ℚ))| ≤ 1 / 2 := by
  unfold roundedHundredths
  have hnonneg : (0 : ℚ) ≤ |value| * 100 + 1 / 2 := by positivity
  have hfloor : (0 : Int) ≤ ⌊|value| * 100 + 1 / 2⌋ := Int.floor_nonneg.mpr hnonneg
  have hcast : ((⌊|value| * 100 + 1 / 2⌋.toNat : Nat) : ℚ) = ((⌊|value| * 100 + 1 / 2⌋ : Int) : ℚ) := by
    have := Int.toNat_of_nonneg hfloor
    exact_mod_cast congrArg (fun z : Int => (z : ℚ)) this
  rw [hcast]
  have h1 := Int.floor_le (|value| * 100 + 1 / 2)
  have h2 := Int.lt_floor_add_one (|value| * 100 + 1 / 2)
  rw [abs_le]
  constructor <;> linarith

theorem span_isDigit_of_not_digit (c : Char) (rest : List Char) (h : c.isDigit = false) :
    (c :: rest).span Char.isDigit = ([], c :: rest) := by
  simp [List.span, List.span.loop, h]

theorem parseUnsigned_nan (cs : List Char) (hinf : "Infinity".toList.isPrefixOf cs = false)
    (hstart : startsWithDecimal cs = false) : parseUnsigned cs = JsNumber.nan := by
  unfold parseUnsigned
  rw [if_neg (by rw [hinf]; exact Bool.false_ne_true)]
  match cs, hstart with
  | [], _ => simp [List.span, List.span.loop]
  | [c], h =>
    have hc : c.isDigit = false := by simpa [startsWithDecimal] using h
    rw [span_isDigit_of_not_digit c [] hc]
    by_cases hdot : c = '.'
    · subst hdot
      simp [List.span, List.span.loop]
    · simp [hdot]
  | c :: d :: rest, h =>
    have h' : c.isDigit = false ∧ (c = '.' → d.isDigit = false) := by
      simpa [startsWithDecimal, Bool.or_eq_false_iff] using h
    rw [span_isDigit_of_not_digit c (d :: rest) h'.1]
    by_cases hdot : c = '.'
    · subst hdot
      have hd : d.isDigit = false := h'.2 rfl
      simp [span_isDigit_of_not_digit d rest hd]
      exact hd
    · simp [hdot]

theorem parseFloatText_nan (s : String) (h : startsWithNumber s = false) :
    parseFloatText s = JsNumber.nan := by
  unfold startsWithNumber at h
  unfold parseFloatText
  simp only [Bool.or_eq_false_iff] at h
  split
  · next rest heq =>
    rw [heq] at h
    rw [parseUnsigned_nan rest h.1 h.2]
    rfl
  · next rest heq =>
    rw [heq] at h
    exact parseUnsigned_nan rest h.1 h.2
  · next cs hminus hplus =>
    have hcs : dropSign (s.toList.dropWhile isJsWhiteSpace) =
        s.toList.dropWhile isJsWhiteSpace := by
      unfold dropSign
      split
      · next rest heq => exact absurd heq (hminus rest)
      · next rest heq => exact absurd heq (hplus rest)
      · rfl
    rw [hcs] at h
    exact parseUnsigned_nan _ h.1 h.2

theorem toLocaleString_zero : toLocaleString (JsNumber.finite 0) = "0.00" := by
  decide!

/-- Claim C22. For every currency and every finite amount, given as a number
or as a text that `parseFloat` reads as that number, `formatAmount` returns the
symbol of the currency followed by the rendering of the amount: a minus sign if
it is negative, the integer part of its rounded hundredths in groups of three
separated by commas, a point, and exactly two digits. The hundredths are those
nearest to the amount. The amount 1234.5 with the symbol `$` gives `$1,234.50`. -/
theorem formatAmount_finite (currency : Currency) (value : ℚ) :
    formatAmount currency (AmountInput.number (JsNumber.finite value)) =
        currency.symbol ++ toLocaleString (JsNumber.finite value) ∧
      (∀ s, parseFloat (AmountInput.text s) = JsNumber.finite value →
        formatAmount currency (AmountInput.text s) =
          currency.symbol ++ toLocaleString (JsNumber.finite value)) ∧
      toLocaleString (JsNumber.finite value) =
        (if value < 0 then "-" else "") ++ groupThousands (roundedHundredths value / 100) ++
          "." ++ twoDigits (roundedHundredths value % 100) ∧
      (twoDigits (roundedHundredths value % 100)).length = 2 ∧
      (twoDigits (roundedHundredths value % 100)).toList.all Char.isDigit = true ∧
      |(|value| * 100 - (roundedHundredths value : ℚ))| ≤ 1 / 2 ∧
      (∀ n, groupThousands n =
        if n < 1000 then toString n
        else groupThousands (n / 1000) ++ "," ++ threeDigits (n % 1000)) ∧
      (∀ k, k < 1000 →
        (threeDigits k).length = 3 ∧ (threeDigits k).toList.all Char.isDigit = true) ∧
      formatAmount usDollar (AmountInput.number (JsNumber.finite (2469 / 2))) = "$1,234.50" ∧
      formatAmount usDollar (AmountInput.text "1234.5") = "$1,234.50" := by
  refine ⟨rfl, ?_, rfl, (twoDigits_shape _ (Nat.mod_lt _ (by decide))).1,
    (twoDigits_shape _ (Nat.mod_lt _ (by decide))).2, roundedHundredths_near value,
    groupThousands_eq, threeDigits_shape, by decide!, by decide!⟩
  intro s h
  show currency.symbol ++ toLocaleString (orZero (parseFloat (AmountInput.text s))) = _
  rw [h]
  rfl

/-- Claim C23, amended. For every currency, `formatAmount` returns the symbol
followed by `0.00`, which is what it returns for 0, when the amount is
`undefined`, `null` or `NaN`, and when it is a text that does not start, after
white space and an optional sign, with a digit, with a point followed by a
digit, or with `Infinity`. -/
theorem formatAmount_not_numeric (currency : Currency) :
    formatAmount currency AmountInput.undefined = currency.symbol ++ "0.00" ∧
      formatAmount currency AmountInput.null = currency.symbol ++ "0.00" ∧
      formatAmount currency (AmountInput.number JsNumber.nan) = currency.symbol ++ "0.00" ∧
      (∀ s, startsWithNumber s = false →
        formatAmount currency (AmountInput.text s) = currency.symbol ++ "0.00") ∧
      formatAmount currency (AmountInput.number (JsNumber.finite 0)) =
        currency.symbol ++ "0.00" ∧
      startsWithNumber "abc" = false ∧ startsWithNumber "" = false ∧
      startsWithNumber "-" = false ∧ startsWithNumber "." = false := by
  have hz : ∀ amount, orZero (parseFloat amount) = JsNumber.finite 0 →
      formatAmount currency amount = currency.symbol ++ "0.00" := by
    intro amount h
    show currency.symbol ++ toLocaleString (orZero (parseFloat amount)) = _
    rw [h, toLocaleString_zero]
  refine ⟨hz _ rfl, hz _ rfl, hz _ rfl, ?_, hz _ rfl, by decide, by decide, by decide,
    by decide⟩
  intro s h
  apply hz
  show orZero (parseFloatText s) = JsNumber.finite 0
  rw [parseFloatText_nan s h]
  rfl

/-- Claim C23 as written fails for a text that is not a number but starts with
one: `parseFloat` reads the start of `12abc`, and the result is `$12.00`, not
the `$0.00` returned for 0. -/
theorem formatAmount_text_counterexample :
    formatAmount usDollar (AmountInput.text "12abc") = "$12.00" ∧
      formatAmount usDollar (AmountInput.number (JsNumber.finite 0)) = "$0.00" ∧
      formatAmount usDollar (AmountInput.text "12abc") ≠
        formatAmount usDollar (AmountInput.number (JsNumber.finite 0)) := by
  decide!

theorem jsonParseCurrency_stringify : ∀ c ∈ currencies,
    jsonParseCurrency (jsonStringify (some c)) = some c ∧ jsonStringify (some c) ≠ "" := by
  decide

theorem currencies_find_option : ∀ position : Fin currencyOptions.length,
    ∃ c ∈ currencies,
      currencies.find? (fun c => c.code == currencyOptions.get position) = some c := by
  decide

theorem mountCurrencyProvider_saved (storage : Storage) (c : Currency) (hc : c ∈ currencies)
    (hsaved : getItem storage "currency" = some (jsonStringify (some c))) :
    mountCurrencyProvider storage =
      some (saveCurrency { currency := some c, localStorage := storage }) := by
  unfold mountCurrencyProvider
  rw [hsaved]
  simp only
  rw [if_neg (jsonParseCurrency_stringify c hc).2, (jsonParseCurrency_stringify c hc).1]

theorem mountCurrencyProvider_fresh (storage : Storage)
    (hnone : getItem storage "currency" = none) :
    mountCurrencyProvider storage =
      some (saveCurrency { currency := currencies.get? 0, localStorage := storage }) := by
  unfold mountCurrencyProvider
  rw [hnone]

theorem saveCurrency_listed (c : Currency) (hc : c ∈ currencies) (storage : Storage) :
    listedAndSaved (saveCurrency { currency := some c, localStorage := storage }) :=
  ⟨c, hc, rfl, getItem_setItem storage "currency" (jsonStringify (some c))⟩

theorem afterCurrencyEvents_listed (events : List CurrencyEvent) :
    ∀ s, listedAndSaved s → ∃ s', afterCurrencyEvents s events = some s' ∧ listedAndSaved s' := by
  induction events with
  | nil => exact fun s h => ⟨s, rfl, h⟩
  | cons event events ih =>
    intro s h
    cases event with
    | select position =>
      obtain ⟨c, hc, hfind⟩ := currencies_find_option position
      have hstep : afterCurrencyEvent s (CurrencyEvent.select position) =
          some (saveCurrency { currency := some c, localStorage := s.localStorage }) := by
        show some (saveCurrency { s with currency := currencies.find? _ }) = _
        rw [hfind]
      obtain ⟨s', hs', hl⟩ := ih _ (saveCurrency_listed c hc s.localStorage)
      exact ⟨s', by simp only [afterCurrencyEvents, hstep, hs'], hl⟩
    | reload =>
      obtain ⟨c, hc, _, hsaved⟩ := h
      have hstep : afterCurrencyEvent s CurrencyEvent.reload =
          some (saveCurrency { currency := some c, localStorage := s.localStorage }) :=
        mountCurrencyProvider_saved s.localStorage c hc hsaved
      obtain ⟨s', hs', hl⟩ := ih _ (saveCurrency_listed c hc s.localStorage)
      exact ⟨s', by simp only [afterCurrencyEvents, hstep, hs'], hl⟩

/-- Claim C24. The provider is started on a storage in which nothing is saved
under `currency` and is taken through any sequence of selections in the
selector of the navigation bar and of reloads. Every such run reaches a state,
and in it the currency is one of the four entries of `currencies` (KSH, USD,
EUR, GBP) and is the one saved; before any event it is the first entry, KSH. -/
theorem currency_stays_listed (storage : Storage) (events : List CurrencyEvent) :
    (∃ s c, currencyRun (removeItem storage "currency") events = some s ∧
        s.currency = some c ∧ c ∈ currencies ∧
        getItem s.localStorage "currency" = some (jsonStringify (some c))) ∧
      (currencyRun (removeItem storage "currency") []).map (fun s => s.currency) =
        some (some { code := "KSH", symbol := "KSh", name := "Kenyan Shilling" }) ∧
      currencies.map (fun c => c.code) = ["KSH", "USD", "EUR", "GBP"] := by
  have hnone : getItem (removeItem storage "currency") "currency" = none :=
    getItem_removeItem storage "currency"
  have hmount := mountCurrencyProvider_fresh (removeItem storage "currency") hnone
  refine ⟨?_, ?_, rfl⟩
  · have hfirst : listedAndSaved
        (saveCurrency
          { currency := currencies.get? 0, localStorage := removeItem storage "currency" }) :=
      saveCurrency_listed { code := "KSH", symbol := "KSh", name := "Kenyan Shilling" }
        (by decide) _
    obtain ⟨s', hs', c, hc, hcur, hsaved⟩ := afterCurrencyEvents_listed events _ hfirst
    refine ⟨s', c, ?_, hcur, hc, hsaved⟩
    unfold currencyRun
    rw [hmount]
    exact hs'
  · unfold currencyRun
    rw [hmount]
    rfl

/-- Claim C25. For every currency `c` of the static list and every state of
the provider, after `setCurrency(c)` the key `currency` of the storage holds
the JSON serialization of `c`, and a provider mounted on that storage has the
currency `c`, with the same code, symbol and name. -/
theorem currency_round_trip (c : Currency) (hc : c ∈ currencies) (s : CurrencyState) :
    getItem (setCurrency (some c) s).localStorage "currency" = some (jsonStringify (some c)) ∧
      ∃ mounted, mountCurrencyProvider (setCurrency (some c) s).localStorage = some mounted ∧
        mounted.currency = some c := by
  have hsaved : getItem (setCurrency (some c) s).localStorage "currency" =
      some (jsonStringify (some c)) :=
    getItem_setItem s.localStorage "currency" (jsonStringify (some c))
  exact ⟨hsaved, _, mountCurrencyProvider_saved _ c hc hsaved, rfl⟩

theorem currency_round_trip_witness :
    usDollar ∈ currencies ∧
      getItem
          (setCurrency (some usDollar)
            { currency := none, localStorage := emptyStorage }).localStorage "currency" =
        some (jsonStringify (some usDollar)) ∧
      ∃ mounted,
        mountCurrencyProvider
            (setCurrency (some usDollar)
              { currency := none, localStorage := emptyStorage }).localStorage = some mounted ∧
          mounted.currency = some usDollar :=
  ⟨by decide,
    currency_round_trip usDollar (by decide) { currency := none, localStorage := emptyStorage }⟩

end ExpenseTracker
